import Mathlib

/-!
Verification development for the telematrix bridge
(`src/telematrix/__init__.py`, `src/telematrix/database.py`).

The Python source is shallowly embedded: pure helpers become Lean functions
over `List Char` / `String`, the SQLAlchemy session becomes an explicit
record of lists, the asynchronous platform clients (Matrix HTTP client,
aiotg Telegram bot) become oracles whose results are passed in, and the
calls the handlers make to them are collected in an explicit trace.
Python exceptions (`KeyError`, `IndexError`, the `RuntimeError` raised by
aiotg on a failed Telegram API call) are modelled with an explicit error
type; `try`/`except` clauses of the source become matches on it.

The sanitizer `sanitize_html` uses BeautifulSoup with the `html.parser`
builder.  That library is modelled executably: a character-level lexer
(`lexAux`), a stack tree-builder (`bstep`/`closeAll`) that mirrors
BeautifulSoup's `_popToTag` recovery, and a renderer (`renderF`) using the
minimal entity substitution (`&` `<` `>`) that BeautifulSoup applies to
text.  Simplifications of the model, none of which the claims depend on:
tag names are modelled as nonempty alphabetic strings and attributes are
skipped until the closing `>` (BeautifulSoup would keep attributes, and
also allows digits and punctuation in names); comments, doctypes and
processing instructions are treated as literal text; the raw-text
behaviour of `script`/`style` elements is not modelled; only the entities
`&amp;` `&lt;` `&gt;` (the ones the renderer emits) are decoded.
-/

namespace Telematrix

/-- Allow list of the sanitizer, `VALID_TAGS` in the source. -/
def VALID_TAGS : List (List Char) :=
  ["b".data, "strong".data, "i".data, "em".data, "a".data, "pre".data]

/-- Node of the parsed HTML fragment tree built by BeautifulSoup. -/
inductive Node where
  | text (s : List Char)
  | tag (name : List Char) (children : List Node)

/-- Minimal entity substitution BeautifulSoup applies to text on output. -/
def escapeChars : List Char → List Char
  | [] => []
  | c :: rest =>
    (if c = '&' then "&amp;".data
     else if c = '<' then "&lt;".data
     else if c = '>' then "&gt;".data
     else [c]) ++ escapeChars rest

/-- Renders a forest back to markup, `soup.renderContents()`. -/
def renderF : List Node → List Char
  | [] => []
  | .text s :: ns => escapeChars s ++ renderF ns
  | .tag n cs :: ns =>
    ('<' :: (n ++ ['>'])) ++ renderF cs ++ ('<' :: '/' :: (n ++ ['>'])) ++ renderF ns

/-- Concatenated text of a forest, the `tag.text` property. -/
def innerTextF : List Node → List Char
  | [] => []
  | .text s :: ns => s ++ innerTextF ns
  | .tag _ cs :: ns => innerTextF cs ++ innerTextF ns

/-- Python `.replace('\n', '\n> ')` of the blockquote branch. -/
def quoteLines : List Char → List Char
  | [] => []
  | c :: rest => (if c = '\n' then ['\n', '>', ' '] else [c]) ++ quoteLines rest

/-- Blockquote content rewrite of the source:
`('\n' + tag.text).replace('\n', '\n> ')[3:-3]`, with Python slice
semantics (`s[3:-3]` is empty when the string has fewer than 7 chars). -/
def bqString (t : List Char) : List Char :=
  let s := quoteLines ('\n' :: t)
  (s.drop 3).take (s.length - 6)

/-- The `for tag in soup.find_all(True)` loop of `sanitize_html`:
a blockquote has its content replaced by the quote rewrite of its text and
is then hidden (it is not in `VALID_TAGS`); other tags outside the allow
list are hidden, keeping their children; allowed tags are kept. -/
def sanitizeF : List Node → List Node
  | [] => []
  | .text s :: ns => .text s :: sanitizeF ns
  | .tag n cs :: ns =>
    if n = "blockquote".data then .text (bqString (innerTextF cs)) :: sanitizeF ns
    else if n ∈ VALID_TAGS then .tag n (sanitizeF cs) :: sanitizeF ns
    else sanitizeF cs ++ sanitizeF ns

/-- Tokens produced by the model of `html.parser`. -/
inductive Tok where
  | txt (c : Char)
  | tagOpen (name : List Char)
  | tagClose (name : List Char)

/-- Lexer state: plain data, a pending `&…` entity, or a partially read
tag.  `raw` keeps the consumed characters verbatim so a tag left open at
the end of input is flushed back as literal text, matching
`HTMLParser.close()` which emits an unterminated tag as data. -/
inductive LexMode where
  | data
  | amp (acc : List Char)
  | tagStart
  | closeStart
  | tagName (closing : Bool) (nm : List Char) (raw : List Char)
  | tagJunk (closing : Bool) (nm : List Char) (raw : List Char)

/-- Entity names of the model and their viable strict left parts. -/
def entityViable (acc : List Char) : Bool :=
  acc = "a".data || acc = "am".data || acc = "amp".data ||
  acc = "l".data || acc = "lt".data || acc = "g".data || acc = "gt".data

/-- Token emitted for a completed `&acc;` sequence. -/
def entityEmit (acc : List Char) : List Tok :=
  if acc = "amp".data then [.txt '&']
  else if acc = "lt".data then [.txt '<']
  else if acc = "gt".data then [.txt '>']
  else ('&' :: (acc ++ [';'])).map .txt

/-- Leftover tokens for the lexer state at the end of input. -/
def lexFlush : LexMode → List Tok
  | .data => []
  | .amp acc => ('&' :: acc).map .txt
  | .tagStart => [.txt '<']
  | .closeStart => [.txt '<', .txt '/']
  | .tagName _ _ raw => raw.map .txt
  | .tagJunk _ _ raw => raw.map .txt

/-- Character-level model of feeding the input to `html.parser`. -/
def lexAux : LexMode → List Char → List Tok
  | m, [] => lexFlush m
  | .data, c :: rest =>
    if c = '&' then lexAux (.amp []) rest
    else if c = '<' then lexAux .tagStart rest
    else .txt c :: lexAux .data rest
  | .amp acc, c :: rest =>
    if c = ';' then entityEmit acc ++ lexAux .data rest
    else if entityViable (acc ++ [c]) then lexAux (.amp (acc ++ [c])) rest
    else ('&' :: acc).map .txt ++
      (if c = '&' then lexAux (.amp []) rest
       else if c = '<' then lexAux .tagStart rest
       else .txt c :: lexAux .data rest)
  | .tagStart, c :: rest =>
    if c = '/' then lexAux .closeStart rest
    else if c.isAlpha then lexAux (.tagName false [c.toLower] ['<', c]) rest
    else .txt '<' ::
      (if c = '&' then lexAux (.amp []) rest
       else if c = '<' then lexAux .tagStart rest
       else .txt c :: lexAux .data rest)
  | .closeStart, c :: rest =>
    if c.isAlpha then lexAux (.tagName true [c.toLower] ['<', '/', c]) rest
    else .txt '<' :: .txt '/' ::
      (if c = '&' then lexAux (.amp []) rest
       else if c = '<' then lexAux .tagStart rest
       else .txt c :: lexAux .data rest)
  | .tagName closing nm raw, c :: rest =>
    if c = '>' then (if closing then .tagClose nm else .tagOpen nm) :: lexAux .data rest
    else if c.isAlpha then lexAux (.tagName closing (nm ++ [c.toLower]) (raw ++ [c])) rest
    else lexAux (.tagJunk closing nm (raw ++ [c])) rest
  | .tagJunk closing nm raw, c :: rest =>
    if c = '>' then (if closing then .tagClose nm else .tagOpen nm) :: lexAux .data rest
    else lexAux (.tagJunk closing nm (raw ++ [c])) rest

/-- Lexes a raw markup string. -/
def lex (s : List Char) : List Tok := lexAux .data s

/-- Tree-builder state: children of the currently open element (reversed)
and the stack of enclosing open elements with their earlier siblings. -/
structure BState where
  cur : List Node
  parents : List (List Char × List Node)

/-- BeautifulSoup `_popToTag`: closes open elements until (and including)
the innermost one with the given name. -/
def popUntil (n : List Char) (cur : List Node) : List (List Char × List Node) → BState
  | [] => ⟨cur, []⟩
  | (m, saved) :: ps =>
    if m = n then ⟨.tag m cur.reverse :: saved, ps⟩
    else popUntil n (.tag m cur.reverse :: saved) ps

/-- One token of tree building.  An end tag with no matching open element
is ignored, as BeautifulSoup does. -/
def bstep (st : BState) : Tok → BState
  | .txt c => ⟨.text [c] :: st.cur, st.parents⟩
  | .tagOpen n => ⟨[], (n, st.cur) :: st.parents⟩
  | .tagClose n =>
    if st.parents.any (fun p => p.1 = n) then popUntil n st.cur st.parents else st

/-- Elements still open at the end of input keep their children. -/
def closeAllAux (cur : List Node) : List (List Char × List Node) → List Node
  | [] => cur.reverse
  | (m, saved) :: ps => closeAllAux (.tag m cur.reverse :: saved) ps

/-- Finishes the tree at the end of the token stream. -/
def closeAll (st : BState) : List Node := closeAllAux st.cur st.parents

/-- Builds the BeautifulSoup tree from the token stream. -/
def buildF (ts : List Tok) : List Node := closeAll (ts.foldl bstep ⟨[], []⟩)

/-- Python `str.replace(pat, rep)` (leftmost, non-overlapping), by fuel;
the fuel is an upper bound on the scan position and `pyReplace` supplies
the string length, so it never runs out. -/
def replAux (pat rep : List Char) : Nat → List Char → List Char
  | _, [] => []
  | 0, s => s
  | fuel + 1, c :: rest =>
    if pat.isPrefixOf (c :: rest) && !pat.isEmpty then
      rep ++ replAux pat rep fuel ((c :: rest).drop pat.length)
    else
      c :: replAux pat rep fuel rest

/-- Python `str.replace` on character lists. -/
def pyReplace (pat rep s : List Char) : List Char :=
  replAux pat rep s.length s

/-- Line-break normalisation of `sanitize_html`:
`.replace('<br>', '\n').replace('<br/>', '\n').replace('<br />', '\n')`. -/
def brAll (s : List Char) : List Char :=
  pyReplace "<br />".data ['\n'] (pyReplace "<br/>".data ['\n'] (pyReplace "<br>".data ['\n'] s))

/-- The sanitizer `sanitize_html` of the source: normalise line-break
tags, parse, rewrite blockquotes and hide disallowed tags, render. -/
def sanitize_html (s : String) : String :=
  ⟨renderF (sanitizeF (buildF (lex (brAll s.data))))⟩

/-! ### Machinery for the idempotency proof -/

/-- A forest is sane when every tag name is on the allow list.  The
sanitizer only emits sane forests. -/
def saneF : List Node → Prop
  | [] => True
  | .text _ :: ns => saneF ns
  | .tag n cs :: ns => n ∈ VALID_TAGS ∧ saneF cs ∧ saneF ns

/-- Splits every text node into one node per character.  Re-parsing a
rendered forest yields its exploded form, which is observationally equal
to it (same render, same text, same tags). -/
def explodeF : List Node → List Node
  | [] => []
  | .text s :: ns => s.map (fun c => .text [c]) ++ explodeF ns
  | .tag n cs :: ns => .tag n (explodeF cs) :: explodeF ns

/-- Token stream of a forest: what the lexer produces on its render. -/
def toksF : List Node → List Tok
  | [] => []
  | .text s :: ns => s.map .txt ++ toksF ns
  | .tag n cs :: ns => .tagOpen n :: (toksF cs ++ (.tagClose n :: toksF ns))

/-- A position right after a `<` in the render of a sane forest: an
allowed tag name (optionally after a slash) followed by `>`. -/
def AfterLt (v : List Char) : Prop :=
  ∃ n r, n ∈ VALID_TAGS ∧ (v = n ++ '>' :: r ∨ v = '/' :: (n ++ '>' :: r))

/-- Every occurrence of `<` in `s` opens an allowed tag. -/
def GoodLt (s : List Char) : Prop :=
  ∀ u v, s = u ++ '<' :: v → AfterLt v

/-- No occurrence of `pat` as a factor of `s`. -/
def NoOcc (pat s : List Char) : Prop := ∀ u v, s ≠ u ++ (pat ++ v)

/-! ### Store and event model of the router -/

/-- Python exceptions relevant to the handlers. -/
inductive PyErr where
  | keyError (k : String)
  | indexError
  | runtimeError
deriving DecidableEq, Repr

/-- Row of the `chat_link` table (`database.ChatLink`).  `tg_room` keeps
the value handed to the constructor: the substring sliced out of the room
alias (the BigInteger column coerces it on flush; lookups by a chat id
compare against its decimal rendering). -/
structure ChatLink where
  matrix_room : String
  tg_room : String
  active : Bool
deriving DecidableEq, Repr

/-- Row of the `matrix_user` table (`database.MatrixUser`); the name
column is nullable. -/
structure MatrixUser where
  matrix_id : String
  name : Option String
deriving DecidableEq, Repr

/-- Row of the `tg_user` table (`database.TgUser`). -/
structure TgUser where
  tg_id : Int
  name : String
  profile_pic_id : Option String
deriving DecidableEq, Repr

/-- Row of the `message` table (`database.Message`): the cross-platform
message correlation. -/
structure Message where
  tg_group_id : Int
  tg_message_id : Int
  matrix_room_id : String
  matrix_event_id : String
  displayname : String
deriving DecidableEq, Repr

/-- The SQLAlchemy session state, one list per table.  `session.add` is
modelled as an append; the claims in this file do not distinguish rows
pending in the session from committed rows. -/
structure DBState where
  chat_links : List ChatLink
  matrix_users : List MatrixUser
  tg_users : List TgUser
  messages : List Message
deriving DecidableEq, Repr

/-- Python `str.split(sep)` on character lists. -/
def splitOnChar (sep : Char) : List Char → List (List Char)
  | [] => [[]]
  | c :: rest =>
    match splitOnChar sep rest with
    | [] => [[]]
    | h :: t => if c = sep then [] :: h :: t else (c :: h) :: t

/-- Python `str.split(sep)` on strings. -/
def pySplit (sep : Char) (s : String) : List String :=
  (splitOnChar sep s.data).map List.asString

/-- Python `html.escape` with its default quoting. -/
def pyHtmlEscape (s : String) : String :=
  ⟨(s.data.map (fun c =>
    if c = '&' then "&amp;".data
    else if c = '<' then "&lt;".data
    else if c = '>' then "&gt;".data
    else if c = '"' then "&quot;".data
    else if c = '\'' then "&#x27;".data
    else [c])).flatten⟩

/-- Python `x or y` on a nullable string (`None` and `''` are falsy). -/
def pyOrStr (x : Option String) (y : String) : String :=
  match x with
  | none => y
  | some s => if s = "" then y else s

/-- Rendering of a nullable string column in a format template
(`'{}'.format(None)` renders `None`). -/
def pyStr (x : Option String) : String :=
  match x with
  | none => "None"
  | some s => s

/-- Uppercase hexadecimal digit. -/
def hexDigit (n : Nat) : Char :=
  if n < 10 then Char.ofNat ('0'.toNat + n) else Char.ofNat ('A'.toNat + (n - 10))

/-- `urllib.parse.quote` with its default safe set (alphanumerics, `_.-~`
and `/`); other characters are percent-encoded.  Only ASCII arguments are
used by the handlers (message and chat ids joined by a colon). -/
def pyQuote (s : String) : String :=
  ⟨(s.data.map (fun c =>
    if c.isAlphanum || c = '_' || c = '.' || c = '-' || c = '~' || c = '/' then [c]
    else ['%', hexDigit (c.toNat / 16), hexDigit (c.toNat % 16)])).flatten⟩

/-- `get_username`: `user_id.split(':')[0][1:]`. -/
def get_username (user_id : String) : String :=
  ((pySplit ':' user_id).headD "").drop 1

/-- Python `str.startswith`. -/
def pyStartsWith (s pre : String) : Bool := pre.data.isPrefixOf s.data

/-- `matrix_is_telegram`: does the localpart of the user id start with
`telegram_`?  The homeserver part after the colon is never examined. -/
def matrix_is_telegram (user_id : String) : Bool :=
  pyStartsWith (get_username user_id) "telegram_"

/-- Guard of the alias loop (the negation of the `continue` condition):
`alias.split('_')[0] == '#telegram' and alias.split(':')[-1] == MATRIX_HOST_BARE`. -/
def aliasMatches (host al : String) : Bool :=
  ((pySplit '_' al).headD "" = "#telegram") && ((pySplit ':' al).getLastD "" = host)

/-- Chat id slice `alias.split('_')[1].split(':')[0]`; IndexError when
the alias contains no underscore. -/
def aliasTgId (al : String) : Except PyErr String :=
  match pySplit '_' al with
  | _ :: p1 :: _ => .ok ((pySplit ':' p1).headD "")
  | _ => .error .indexError

/-- Insert loop of the alias branch: one active link per matching alias,
in order, with the exception that aborted the loop, if any. -/
def insertAliasLinks (host room : String) : List String → List ChatLink × Option PyErr
  | [] => ([], none)
  | a :: rest =>
    if aliasMatches host a then
      match aliasTgId a with
      | .ok tg =>
        let r := insertAliasLinks host room rest
        (⟨room, tg, true⟩ :: r.1, r.2)
      | .error e => ([], some e)
    else insertAliasLinks host room rest

/-- The `m.room.aliases` branch (lines 178-197): delete every ChatLink
row of the room, then insert one active row per alias matching the
bridge naming pattern. -/
def processAliases (host room : String) (aliases : List String) (t : List ChatLink) :
    List ChatLink × Option PyErr :=
  let r := insertAliasLinks host room aliases
  ((t.filter fun l => decide (l.matrix_room ≠ room)) ++ r.1, r.2)

/-- Chat id of a matching alias (total restatement of `aliasTgId`). -/
def aliasChatId (al : String) : String :=
  match aliasTgId al with
  | .ok s => s
  | .error _ => ""

/-- Content of a Matrix event; a `none` field models an absent key, whose
subscript access raises KeyError.  `displayname` is doubly optional: the
key may be absent, or present with a null value. -/
structure MatrixContent where
  msgtype : Option String
  body : Option String
  format : Option String
  formatted_body : Option String
  url : Option String
  aliases : Option (List String)
  membership : Option String
  displayname : Option (Option String)
deriving DecidableEq, Repr

/-- `unsigned.prev_content` of a membership event. -/
structure PrevContent where
  membership : Option String
  displayname : Option (Option String)
deriving DecidableEq, Repr

/-- One event of the inbound transaction.  `prev_content` is present
exactly when `'unsigned' in event and 'prev_content' in event['unsigned']`. -/
structure MatrixEvent where
  etype : Option String
  room_id : Option String
  user_id : Option String
  state_key : Option String
  content : Option MatrixContent
  event_id : Option String
  age : Option Int
  prev_content : Option PrevContent
deriving DecidableEq, Repr

/-- Calls made to the platform clients, in order. -/
inductive ClientOp where
  | profileGet (user_id : String)
  | tgSendText (text : String)
  | tgSendMedia (msgtype : String)
  | mxSend (room_id user_id txn_id body : String) (formatted_body : Option String)
  | mxRegister (user : String)
  | mxJoin (room_id user_id : String)
  | mxSetDisplayname (user_id name : String)
  | mxSetAvatar (user_id : String)
  | tgGetProfilePhotos (tg_id : Int)
  | mxUploadMedia (user_id : String)
deriving DecidableEq, Repr

/-- Result of a Telegram bot send: a successful API response carrying the
chat and message ids, or the BotApiError (a RuntimeError) aiotg raises on
a failed call. -/
inductive TgSendResult where
  | ok (chat_id message_id : Int)
  | err
deriving DecidableEq, Repr

/-- Outcome of a whole media/sticker `try` block: the final Telegram send
succeeded with a response, or some step raised and the bare `except`
swallowed it, leaving the `response` variable untouched. -/
inductive MediaResult where
  | sent (chat_id message_id : Int)
  | failed
deriving DecidableEq, Repr

/-- Results of the external calls the Matrix-side handler can make while
processing one event. -/
structure MatrixOracles where
  profile : String → Option String
  tgSend : String → TgSendResult
  media : MediaResult

/-- Value held by the `response` variable when the row-recording epilogue
(line 378) runs: `None`, a successful Telegram send response, or the
profile-lookup JSON (a non-empty dict without a `result` key). -/
inductive RespVal where
  | noneV
  | tgOk (chat_id message_id : Int)
  | profileJson
deriving DecidableEq, Repr

/-- How a dispatch branch ends: fall through to the epilogue, `continue`
before it, a RuntimeError caught by the `except RuntimeError` clause, or
an exception that escapes the handler. -/
inductive BranchStatus where
  | fallthrough (resp : RespVal) (displayname : String)
  | skipped
  | runtimeCaught
  | uncaught (e : PyErr)
deriving Repr

/-- Result of one handler invocation: client calls in order, session
state, and the exception escaping the handler, if any. -/
structure HandlerResult where
  ops : List ClientOp
  db : DBState
  exc : Option PyErr
deriving Repr

/-- `format_matrix_msg` applied to a `'{}'` format string, as all three
text branches do.  The `re.sub` rewriting `matrix.to` ghost links into
`tg://` links is not modelled (no claim depends on that rewriting); the
html branch otherwise sanitizes `formatted_body`, the plain branch
escapes `body`. -/
def format_matrix_msg (content : MatrixContent) : Except PyErr String :=
  if content.format = some "org.matrix.custom.html" then
    match content.formatted_body with
    | none => .error (.keyError "formatted_body")
    | some fb => .ok (sanitize_html fb)
  else
    match content.body with
    | none => .error (.keyError "body")
    | some b => .ok (pyHtmlEscape b)

/-- Outcome of the sender cache refresh of the message and sticker
branches (lines 214-227): client calls, the display name, the value the
`response` variable was left with, and the updated session. -/
structure SenderLookup where
  ops : List ClientOp
  displayname : String
  resp : RespVal
  db : DBState

/-- Sender cache refresh: a cache hit uses the cached name (falling back
to the username for a falsy column); a miss performs a profile lookup
(leaving the profile JSON in `response`), falls back to the username when
the response has no `displayname` key, and adds a MatrixUser row. -/
def resolveMatrixSender (orc : MatrixOracles) (db : DBState) (user_id : String) :
    SenderLookup :=
  match db.matrix_users.find? (fun s => s.matrix_id = user_id) with
  | some s => ⟨[], pyOrStr s.name (get_username user_id), .noneV, db⟩
  | none =>
    let dn := (orc.profile user_id).getD (get_username user_id)
    ⟨[.profileGet user_id], dn, .profileJson,
      { db with matrix_users := db.matrix_users ++ [⟨user_id, some dn⟩] }⟩

/-- Row-recording epilogue (lines 378-385): a truthy `response` is read as
a Telegram send response.  The profile JSON is truthy but has no `result`
key, so the epilogue raises KeyError on it; `event['event_id']` is only
read here. -/
def recordTgRow (resp : RespVal) (room_id : String) (event_id : Option String)
    (displayname : String) (db : DBState) : DBState × Option PyErr :=
  match resp with
  | .noneV => (db, none)
  | .profileJson => (db, some (.keyError "result"))
  | .tgOk c m =>
    match event_id with
    | none => (db, some (.keyError "event_id"))
    | some eid =>
      ({ db with messages := db.messages ++ [⟨c, m, room_id, eid, displayname⟩] }, none)

/-- Template applied before the Telegram send for the three text kinds. -/
def tgTextFor (msgtype displayname msg : String) : String :=
  if msgtype = "m.text" then "<b>" ++ displayname ++ ":</b> " ++ msg
  else if msgtype = "m.notice" then "[" ++ displayname ++ "] " ++ msg
  else "* " ++ displayname ++ " " ++ msg

/-- The four media message types of line 245. -/
def isMediaType (mt : String) : Bool :=
  mt = "m.image" || mt = "m.audio" || mt = "m.video" || mt = "m.file"

/-- The `m.room.message` branch (lines 209-292). -/
def processMessageBranch (orc : MatrixOracles) (db : DBState) (user_id : String)
    (econtent : Option MatrixContent) : List ClientOp × DBState × BranchStatus :=
  if matrix_is_telegram user_id then ([], db, .skipped)
  else
    let sl := resolveMatrixSender orc db user_id
    match econtent with
    | none => (sl.ops, sl.db, .uncaught (.keyError "content"))
    | some content =>
      match content.msgtype with
      | none => (sl.ops, sl.db, .skipped)
      | some mt =>
        if mt = "m.text" || mt = "m.notice" || mt = "m.emote" then
          match format_matrix_msg content with
          | .error e => (sl.ops, sl.db, .uncaught e)
          | .ok msg =>
            let text := tgTextFor mt sl.displayname msg
            match orc.tgSend text with
            | .ok c m =>
              (sl.ops ++ [.tgSendText text], sl.db, .fallthrough (.tgOk c m) sl.displayname)
            | .err => (sl.ops ++ [.tgSendText text], sl.db, .runtimeCaught)
        else if isMediaType mt then
          match orc.media with
          | .sent c m =>
            (sl.ops ++ [.tgSendMedia mt], sl.db, .fallthrough (.tgOk c m) sl.displayname)
          | .failed =>
            (sl.ops ++ [.tgSendMedia mt], sl.db, .fallthrough sl.resp sl.displayname)
        else (sl.ops, sl.db, .fallthrough sl.resp sl.displayname)

/-- The `m.sticker` branch (lines 294-325). -/
def processStickerBranch (orc : MatrixOracles) (db : DBState) (user_id : String)
    (econtent : Option MatrixContent) : List ClientOp × DBState × BranchStatus :=
  if matrix_is_telegram user_id then ([], db, .skipped)
  else
    let sl := resolveMatrixSender orc db user_id
    match econtent with
    | none => (sl.ops, sl.db, .uncaught (.keyError "content"))
    | some _ =>
      match orc.media with
      | .sent c m =>
        (sl.ops ++ [.tgSendMedia "m.sticker"], sl.db, .fallthrough (.tgOk c m) sl.displayname)
      | .failed =>
        (sl.ops ++ [.tgSendMedia "m.sticker"], sl.db, .fallthrough sl.resp sl.displayname)

/-- Updates the first MatrixUser row with the given id. -/
def updateMatrixUserName (users : List MatrixUser) (mid nm : String) : List MatrixUser :=
  match users with
  | [] => []
  | u :: rest =>
    if u.matrix_id = mid then { u with name := some nm } :: rest
    else u :: updateMatrixUserName rest mid nm

/-- The `m.room.member` branch (lines 327-376). -/
def processMemberBranch (hide : Bool) (orc : MatrixOracles) (db : DBState)
    (state_key : Option String) (econtent : Option MatrixContent)
    (prev : Option PrevContent) : List ClientOp × DBState × BranchStatus :=
  if hide then ([], db, .skipped)
  else
    match state_key with
    | none => ([], db, .uncaught (.keyError "state_key"))
    | some sk =>
      if matrix_is_telegram sk then ([], db, .skipped)
      else
        match econtent with
        | none => ([], db, .uncaught (.keyError "content"))
        | some content =>
          let senderOpt := db.matrix_users.find? (fun s => s.matrix_id = sk)
          let displayname0 :=
            match senderOpt with
            | some s => pyStr s.name
            | none => get_username sk
          match content.membership with
          | none => ([], db, .uncaught (.keyError "membership"))
          | some mb =>
            if mb = "join" then
              let oldname :=
                match senderOpt with
                | some s => pyStr s.name
                | none => get_username sk
              let displayname :=
                match content.displayname with
                | none => get_username sk
                | some v => pyOrStr v (get_username sk)
              let db2 :=
                match senderOpt with
                | none =>
                  { db with matrix_users := db.matrix_users ++ [⟨sk, some displayname⟩] }
                | some _ =>
                  { db with matrix_users := updateMatrixUserName db.matrix_users sk displayname }
              match prev with
              | some p =>
                match p.membership with
                | none => ([], db2, .uncaught (.keyError "membership"))
                | some pm =>
                  if pm = "join" then
                    let oldname2 :=
                      match p.displayname with
                      | some (some d) => if d = "" then oldname else d
                      | _ => oldname
                    let msg := "> " ++ oldname2 ++ " changed their display name to " ++ displayname
                    match orc.tgSend msg with
                    | .ok c m =>
                      ([.tgSendText msg], db2, .fallthrough (.tgOk c m) displayname)
                    | .err => ([.tgSendText msg], db2, .runtimeCaught)
                  else ([], db2, .fallthrough .noneV displayname)
              | none =>
                let msg := "> " ++ displayname ++ " has joined the room"
                match orc.tgSend msg with
                | .ok c m => ([.tgSendText msg], db2, .fallthrough (.tgOk c m) displayname)
                | .err => ([.tgSendText msg], db2, .runtimeCaught)
            else if mb = "leave" then
              let msg := "< " ++ displayname0 ++ " has left the room"
              match orc.tgSend msg with
              | .ok c m => ([.tgSendText msg], db, .fallthrough (.tgOk c m) displayname0)
              | .err => ([.tgSendText msg], db, .runtimeCaught)
            else if mb = "ban" then
              let msg := "<! " ++ displayname0 ++ " was banned from the room"
              match orc.tgSend msg with
              | .ok c m => ([.tgSendText msg], db, .fallthrough (.tgOk c m) displayname0)
              | .err => ([.tgSendText msg], db, .runtimeCaught)
            else ([], db, .fallthrough .noneV displayname0)

/-- Staleness guard of line 170: drop events older than 600000 ms. -/
def eventFresh (ev : MatrixEvent) : Bool :=
  match ev.age with
  | some a => decide (a ≤ 600000)
  | none => true

/-- Event processing after the alias branch: resolve the ChatLink (drop
the event when the room is unlinked), dispatch on the event type inside
`try … except RuntimeError`, then run the row-recording epilogue. -/
def processLinkedEvent (hide : Bool) (orc : MatrixOracles) (db : DBState)
    (ev : MatrixEvent) (ty : String) : HandlerResult :=
  match ev.room_id with
  | none => ⟨[], db, some (.keyError "room_id")⟩
  | some room =>
    match db.chat_links.find? (fun l => l.matrix_room = room) with
    | none => ⟨[], db, none⟩
    | some _ =>
      let r :=
        if ty = "m.room.message" then
          match ev.user_id with
          | none => ([], db, BranchStatus.uncaught (.keyError "user_id"))
          | some uid => processMessageBranch orc db uid ev.content
        else if ty = "m.sticker" then
          match ev.user_id with
          | none => ([], db, BranchStatus.uncaught (.keyError "user_id"))
          | some uid => processStickerBranch orc db uid ev.content
        else if ty = "m.room.member" then
          processMemberBranch hide orc db ev.state_key ev.content ev.prev_content
        else ([], db, .fallthrough .noneV "")
      match r.2.2 with
      | .skipped => ⟨r.1, r.2.1, none⟩
      | .runtimeCaught => ⟨r.1, r.2.1, none⟩
      | .uncaught e => ⟨r.1, r.2.1, some e⟩
      | .fallthrough resp dn =>
        let rec2 := recordTgRow resp room ev.event_id dn r.2.1
        ⟨r.1, rec2.1, rec2.2⟩

/-- Processing of one event of the transaction loop (lines 169-389). -/
def processMatrixEvent (host : String) (hide : Bool) (orc : MatrixOracles)
    (db : DBState) (ev : MatrixEvent) : HandlerResult :=
  if !eventFresh ev then ⟨[], db, none⟩
  else
    match ev.etype with
    | none => ⟨[], db, some (.keyError "type")⟩
    | some ty =>
      if ty = "m.room.aliases" then
        match ev.state_key with
        | none => ⟨[], db, some (.keyError "state_key")⟩
        | some sk =>
          if sk = host then
            match ev.content with
            | none => ⟨[], db, some (.keyError "content")⟩
            | some content =>
              match content.aliases with
              | none => ⟨[], db, some (.keyError "aliases")⟩
              | some als =>
                match ev.room_id with
                | none => ⟨[], db, some (.keyError "room_id")⟩
                | some room =>
                  let r := processAliases host room als db.chat_links
                  ⟨[], { db with chat_links := r.1 }, r.2⟩
          else processLinkedEvent hide orc db ev ty
      else processLinkedEvent hide orc db ev ty

/-- Loop of `matrix_transaction`: events in order, stopping at the first
uncaught exception (aiohttp then answers 500 instead of the handler's
200 acknowledgment). -/
def matrixTransactionAux (host : String) (hide : Bool) (orc : Nat → MatrixOracles)
    (idx : Nat) (db : DBState) (ops : List ClientOp) :
    List MatrixEvent → Nat × DBState × List ClientOp
  | [] => (200, db, ops)
  | ev :: rest =>
    let r := processMatrixEvent host hide (orc idx) db ev
    match r.exc with
    | some _ => (500, r.db, ops ++ r.ops)
    | none => matrixTransactionAux host hide orc (idx + 1) r.db (ops ++ r.ops) rest

/-- The transaction handler `matrix_transaction`: status of the transport
response, final session state, and the trace of client calls. -/
def matrix_transaction (host : String) (hide : Bool) (orc : Nat → MatrixOracles)
    (db : DBState) (events : List MatrixEvent) : Nat × DBState × List ClientOp :=
  matrixTransactionAux host hide orc 0 db [] events

/-! ### Telegram-side handler -/

/-- A Telegram user object; `first_name` is required by the handlers. -/
structure TgSender where
  id : Int
  first_name : String
  last_name : Option String
deriving DecidableEq, Repr

/-- The quoted message of a reply.  `fromUser` models the `from` key. -/
structure TgReply where
  message_id : Option Int
  text : Option String
  photo : Bool
  sticker : Bool
  date : Option Int
  fromUser : Option TgSender
deriving DecidableEq, Repr

/-- `chat.message` of an aiotg update; `chat_id` is `message['chat']['id']`. -/
structure TgMessage where
  message_id : Int
  chat_id : Int
  forward_from : Option TgSender
  reply_to_message : Option TgReply
deriving DecidableEq, Repr

/-- The aiotg chat wrapper. -/
structure TgChat where
  id : Int
  sender : TgSender
  message : TgMessage
deriving DecidableEq, Repr

/-- Response JSON of a `send_matrix_message` call: an `event_id`, an
`errcode`, or neither. -/
inductive MxSendResult where
  | ok (event_id : String)
  | errcode (code : String)
  | other
deriving DecidableEq, Repr

/-- Results of the external calls of the Telegram-side handler:
`mxSend n` is the response of the n-th `send_matrix_message` call of this
update, `profilePhotos` the newest profile photo file id (none when the
photo list is empty), `uploadOk` whether a media upload returned a
`content_uri`. -/
structure TgOracles where
  mxSend : Nat → MxSendResult
  profilePhotos : Option String
  uploadOk : Bool

/-- Ghost display name `"<first> <last> (Telegram)"`, last name optional;
also the inline name format used for forward and reply citations. -/
def tgDisplayName (sender : TgSender) : String :=
  sender.first_name ++
    (match sender.last_name with
     | some l => " " ++ l
     | none => "") ++ " (Telegram)"

/-- Updates the first TgUser row with the given id. -/
def updateTgUser (users : List TgUser) (tid : Int) (f : TgUser → TgUser) : List TgUser :=
  match users with
  | [] => []
  | u :: rest => if u.tg_id = tid then f u :: rest else u :: updateTgUser rest tid f

/-- `update_matrix_displayname_avatar` (lines 542-578): refresh the ghost
profile from the Telegram sender, keeping the TgUser cache row in sync;
updates are only issued when the cached name or photo id differs. -/
def update_matrix_displayname_avatar (fmt : Int → String) (orc : TgOracles)
    (db : DBState) (tg_user : TgSender) : List ClientOp × DBState :=
  let name := tgDisplayName tg_user
  let user_id := fmt tg_user.id
  let pp := orc.profilePhotos
  let baseOps := [ClientOp.tgGetProfilePhotos tg_user.id]
  match db.tg_users.find? (fun u => u.tg_id = tg_user.id) with
  | some u =>
    let ops1 := if u.name = name then [] else [ClientOp.mxSetDisplayname user_id name]
    let ops2 :=
      if u.profile_pic_id = pp then []
      else
        match pp with
        | some _ => [ClientOp.mxUploadMedia user_id, ClientOp.mxSetAvatar user_id]
        | none => [ClientOp.mxSetAvatar user_id]
    (baseOps ++ ops1 ++ ops2,
     { db with tg_users := (updateTgUser db.tg_users tg_user.id
        (fun u2 => { u2 with name := name, profile_pic_id := pp })) })
  | none =>
    let opsAvatar :=
      match pp with
      | some _ => [ClientOp.mxUploadMedia user_id, ClientOp.mxSetAvatar user_id]
      | none => [ClientOp.mxSetAvatar user_id]
    (baseOps ++ [ClientOp.mxSetDisplayname user_id name] ++ opsAvatar,
     { db with tg_users := db.tg_users ++ [⟨tg_user.id, name, pp⟩] })

/-- `register_join_matrix` (lines 515-539): the lazy provisioning cycle —
register the ghost account, best-effort avatar from the newest profile
photo, set the display name, join the room. -/
def register_join_matrix (orc : TgOracles) (chat : TgChat) (room_id user_id : String) :
    List ClientOp :=
  let user := ((pySplit ':' user_id).headD "").drop 1
  [ClientOp.mxRegister user, ClientOp.tgGetProfilePhotos chat.sender.id] ++
  (match orc.profilePhotos with
   | some _ =>
     if orc.uploadOk then [ClientOp.mxUploadMedia user_id, ClientOp.mxSetAvatar user_id]
     else [ClientOp.mxUploadMedia user_id]
   | none => []) ++
  [ClientOp.mxSetDisplayname user_id (tgDisplayName chat.sender),
   ClientOp.mxJoin room_id user_id]

/-- Python `.replace('\n', '<br />')`. -/
def nl2br (s : String) : String :=
  ⟨(s.data.map (fun c => if c = '\n' then "<br />".data else [c])).flatten⟩

/-- `'\n'.join('>{}'.format(x) for x in t.split('\n'))`. -/
def quoteEachLine (s : String) : String :=
  ⟨(List.intersperse ['\n'] ((splitOnChar '\n' s.data).map (fun l => '>' :: l))).flatten⟩

/-- How the branch part of `aiotg_message` ends: a send with the built
plain and formatted bodies, the early return of the reply guard, or an
uncaught exception. -/
inductive TgBranch where
  | send (body : String) (formatted_body : Option String)
  | earlyReturn
  | raise (e : PyErr)
deriving Repr

/-- Body construction of `aiotg_message` (lines 779-851): forwarded
messages cite the inline forwarding metadata, replies cite the stored
correlation row when one matches `(chat id, quoted message id)` and fall
back to the inline sender and quoted text otherwise, plain messages are
sent as they are. -/
def aiotgMessageBranch (db : DBState) (chat : TgChat) (room_id msgText : String) :
    TgBranch :=
  match chat.message.forward_from with
  | some fw =>
    let msg_from := tgDisplayName fw
    .send ("Forwarded from " ++ msg_from ++ ":\n" ++ quoteEachLine msgText)
      (some ("<i>Forwarded from " ++ pyHtmlEscape msg_from ++ ":</i>\n<blockquote>" ++
        nl2br (pyHtmlEscape msgText) ++ "</blockquote>"))
  | none =>
    match chat.message.reply_to_message with
    | some re_msg =>
      if re_msg.text.isNone && !re_msg.photo && !re_msg.sticker then .earlyReturn
      else
        match re_msg.fromUser with
        | none => .raise (.keyError "from")
        | some fu =>
          let msg_from := tgDisplayName fu
          match re_msg.date with
          | none => .raise (.keyError "date")
          | some _ =>
            match re_msg.message_id with
            | none => .raise (.keyError "message_id")
            | some rmid =>
              let reply_mx_id := db.messages.find? (fun m =>
                m.tg_group_id = chat.message.chat_id && m.tg_message_id = rmid)
              let html_message := nl2br (pyHtmlEscape msgText)
              let quoted_msg0 :=
                match re_msg.text with
                | some t => quoteEachLine t
                | none => ""
              let quoted_html0 :=
                match re_msg.text with
                | some t => "<blockquote>" ++ nl2br (pyHtmlEscape t) ++ "</blockquote>"
                | none => ""
              match reply_mx_id with
              | some row =>
                .send ("Reply to " ++ row.displayname ++ ":\n" ++ quoted_msg0 ++ "\n\n" ++ msgText)
                  (some ("<i><a href=\"https://matrix.to/#/" ++ pyHtmlEscape room_id ++ "/" ++
                    pyHtmlEscape row.matrix_event_id ++ "\">Reply to " ++
                    pyHtmlEscape row.displayname ++ "</a>:</i><br />" ++ quoted_html0 ++
                    "<p>" ++ html_message ++ "</p>"))
              | none =>
                .send ("Reply to " ++ msg_from ++ ":\n" ++ quoted_msg0 ++ "\n\n" ++ msgText)
                  (some ("<i>Reply to " ++ pyHtmlEscape msg_from ++ ":</i><br />" ++
                    quoted_html0 ++ "<p>" ++ html_message ++ "</p>"))
    | none => .send msgText none

/-- The catch-all Telegram text handler `aiotg_message` (lines 766-870):
drop unlinked chats, refresh the ghost profile, build and send the
translated message; on `M_FORBIDDEN` provision the ghost and replay once
with the transaction id suffixed by `join` (the replay response is
assigned but never inspected, so no correlation row is recorded for it);
on a response carrying an `event_id` record one Message row. -/
def aiotg_message (fmt : Int → String) (orc : TgOracles) (db : DBState)
    (chat : TgChat) (msgText : String) : HandlerResult :=
  match db.chat_links.find? (fun l => l.tg_room = toString chat.id) with
  | none => ⟨[], db, none⟩
  | some link =>
    let room_id := link.matrix_room
    let upd := update_matrix_displayname_avatar fmt orc db chat.sender
    let user_id := fmt chat.sender.id
    let txn_id := pyQuote (toString chat.message.message_id ++ ":" ++ toString chat.id)
    match aiotgMessageBranch upd.2 chat room_id msgText with
    | .earlyReturn => ⟨upd.1, upd.2, none⟩
    | .raise e => ⟨upd.1, upd.2, some e⟩
    | .send body formatted =>
      let send1 := ClientOp.mxSend room_id user_id txn_id body formatted
      match orc.mxSend 0 with
      | .errcode c =>
        if c = "M_FORBIDDEN" then
          let provOps := register_join_matrix orc chat room_id user_id
          let send2 := ClientOp.mxSend room_id user_id (txn_id ++ "join") msgText none
          ⟨upd.1 ++ [send1] ++ provOps ++ [send2], upd.2, none⟩
        else ⟨upd.1 ++ [send1], upd.2, none⟩
      | .ok eid =>
        ⟨upd.1 ++ [send1],
         { upd.2 with messages := upd.2.messages ++
            [⟨chat.message.chat_id, chat.message.message_id, room_id, eid,
              tgDisplayName chat.sender⟩] }, none⟩
      | .other => ⟨upd.1 ++ [send1], upd.2, none⟩

/-- Is the op a `send_matrix_message` call? -/
def isMxSendOp : ClientOp → Bool
  | .mxSend .. => true
  | _ => false

/-- Is the op a ghost registration? -/
def isRegisterOp : ClientOp → Bool
  | .mxRegister _ => true
  | _ => false

/-- Is the op a room join? -/
def isJoinOp : ClientOp → Bool
  | .mxJoin .. => true
  | _ => false

/-! ### Concrete fixtures for counterexamples and witnesses -/

/-- Telegram sender of the concrete scenarios. -/
def exSender : TgSender := ⟨99, "Xx", none⟩

/-- Plain Telegram text update (message 7 in chat -100). -/
def exChatPlain : TgChat := ⟨-100, exSender, ⟨7, -100, none, none⟩⟩

/-- Quoted message carrying neither text nor photo nor sticker. -/
def exReplyBare : TgReply := ⟨some 3, none, false, false, some 1000, some exSender⟩

/-- Reply update quoting the bare message. -/
def exChatReplyBare : TgChat := ⟨-100, exSender, ⟨7, -100, none, some exReplyBare⟩⟩

/-- Quoted text message from another Telegram user. -/
def exReplyText : TgReply := ⟨some 3, some "orig", false, false, some 1000, some ⟨55, "Yy", none⟩⟩

/-- Reply update quoting the text message. -/
def exChatReplyText : TgChat := ⟨-100, exSender, ⟨7, -100, none, some exReplyText⟩⟩

/-- Store with one link between room `!r:h` and chat -100 and a cached
Matrix sender. -/
def exDb : DBState := ⟨[⟨"!r:h", "-100", true⟩], [⟨"@alice:h", some "Alice"⟩], [], []⟩

/-- Store with no links at all. -/
def exDbEmpty : DBState := ⟨[], [], [], []⟩

/-- USER_ID_FORMAT `@telegram_{}:h`. -/
def exFmt : Int → String := fun i => "@telegram_" ++ toString i ++ ":h"

/-- Send results: the first send is rejected with M_FORBIDDEN, the
replay succeeds with event id `$E`. -/
def sendsForbiddenThenOk : Nat → MxSendResult
  | 0 => .errcode "M_FORBIDDEN"
  | _ => .ok "$E"

/-- Telegram-side oracles for the forbidden-then-ok scenario. -/
def orcForbiddenThenOk : TgOracles := ⟨sendsForbiddenThenOk, none, false⟩

/-- Telegram-side oracles whose sends always succeed with `$E`. -/
def orcTgOk : TgOracles := ⟨fun _ => .ok "$E", none, false⟩

/-- Matrix-side oracles: profile lookups answer `Alice`, Telegram sends
succeed as message 5 of chat -100. -/
def exMxOrc : MatrixOracles := ⟨fun _ => some "Alice", fun _ => .ok (-100) 5, .failed⟩

/-- Well-formed m.text event from the cached sender in the linked room. -/
def exEvText : MatrixEvent :=
  ⟨some "m.room.message", some "!r:h", some "@alice:h", none,
   some ⟨some "m.text", some "hi", none, none, none, none, none, none⟩,
   some "$ev1", none, none⟩

/-- The same event with its content key missing. -/
def exEvNoContent : MatrixEvent :=
  ⟨some "m.room.message", some "!r:h", some "@alice:h", none, none, some "$ev2", none, none⟩

/-- Message event whose content lacks a msgtype. -/
def exEvNoMsgtype : MatrixEvent :=
  ⟨some "m.room.message", some "!r:h", some "@alice:h", none,
   some ⟨none, some "hi", none, none, none, none, none, none⟩, some "$ev3", none, none⟩

/-- Message event sent by a ghost-named user of a foreign homeserver. -/
def exEvGhost : MatrixEvent :=
  ⟨some "m.room.message", some "!r:h", some "@telegram_99:other.host", none,
   some ⟨some "m.text", some "hi", none, none, none, none, none, none⟩,
   some "$ev4", none, none⟩

theorem escapeChars_append (a b : List Char) :
    escapeChars (a ++ b) = escapeChars a ++ escapeChars b := by
  induction a with
  | nil => simp [escapeChars]
  | cons c t ih => simp [escapeChars, ih]

theorem lt_not_mem_escapeChars (s : List Char) : '<' ∉ escapeChars s := by
  induction s with
  | nil => simp [escapeChars]
  | cons c t ih =>
    by_cases h1 : c = '&' <;> by_cases h2 : c = '<' <;> by_cases h3 : c = '>' <;>
      simp_all [escapeChars, eq_comm]

theorem mem_VALID_TAGS_elim {n : List Char} (h : n ∈ VALID_TAGS) :
    '<' ∉ n ∧ '>' ∉ n ∧ n ≠ "blockquote".data := by
  simp only [VALID_TAGS, List.mem_cons, List.not_mem_nil, or_false] at h
  rcases h with h | h | h | h | h | h <;> subst h <;> decide

theorem afterLt_append {v : List Char} (b : List Char) (h : AfterLt v) :
    AfterLt (v ++ b) := by
  obtain ⟨n, r, hn, hv | hv⟩ := h
  · exact ⟨n, r ++ b, hn, Or.inl (by simp [hv])⟩
  · exact ⟨n, r ++ b, hn, Or.inr (by simp [hv])⟩

theorem goodLt_append {a b : List Char} (ha : GoodLt a) (hb : GoodLt b) :
    GoodLt (a ++ b) := by
  intro u v h
  rcases List.append_eq_append_iff.mp h with ⟨w, hw1, hw2⟩ | ⟨w, hw1, hw2⟩
  · exact hb w v hw2
  · cases w with
    | nil => exact hb [] v (by simpa using hw2.symm)
    | cons x w2 =>
      rw [List.cons_append] at hw2
      injection hw2.symm with h1 h2
      subst h1
      rw [← h2]
      exact afterLt_append b (ha u w2 hw1)

theorem goodLt_of_not_mem {s : List Char} (h : '<' ∉ s) : GoodLt s := by
  intro u v he
  refine absurd ?_ h
  rw [he]
  exact List.mem_append.mpr (Or.inr (List.mem_cons_self _ _))

theorem goodLt_open {n : List Char} (h : n ∈ VALID_TAGS) :
    GoodLt ('<' :: (n ++ ['>'])) := by
  intro u v he
  cases u with
  | nil =>
    rw [List.nil_append] at he
    injection he with h1 h2
    exact ⟨n, [], h, Or.inl (by rw [← h2])⟩
  | cons x u2 =>
    exfalso
    rw [List.cons_append] at he
    injection he with h1 h2
    have hmem : '<' ∈ n ++ ['>'] := by
      rw [h2]; exact List.mem_append.mpr (Or.inr (List.mem_cons_self _ _))
    rcases List.mem_append.mp hmem with hm | hm
    · exact (mem_VALID_TAGS_elim h).1 hm
    · simp at hm

theorem goodLt_close {n : List Char} (h : n ∈ VALID_TAGS) :
    GoodLt ('<' :: '/' :: (n ++ ['>'])) := by
  intro u v he
  cases u with
  | nil =>
    rw [List.nil_append] at he
    injection he with h1 h2
    exact ⟨n, [], h, Or.inr (by rw [← h2])⟩
  | cons x u2 =>
    exfalso
    rw [List.cons_append] at he
    injection he with h1 h2
    have hmem : '<' ∈ '/' :: (n ++ ['>']) := by
      rw [h2]; exact List.mem_append.mpr (Or.inr (List.mem_cons_self _ _))
    rcases List.mem_cons.mp hmem with hm | hm
    · simp at hm
    · rcases List.mem_append.mp hm with hm2 | hm2
      · exact (mem_VALID_TAGS_elim h).1 hm2
      · simp at hm2

theorem goodLt_render {F : List Node} (h : saneF F) : GoodLt (renderF F) := by
  induction F using renderF.induct with
  | case1 => exact goodLt_of_not_mem (by simp [renderF])
  | case2 s ns ih =>
    simp only [saneF] at h
    rw [renderF]
    exact goodLt_append (goodLt_of_not_mem (lt_not_mem_escapeChars s)) (ih h)
  | case3 n cs ns ihc ihn =>
    simp only [saneF] at h
    obtain ⟨hn, hcs, hns⟩ := h
    rw [renderF, List.append_assoc, List.append_assoc]
    exact goodLt_append (goodLt_open hn)
      (goodLt_append (ihc hcs) (goodLt_append (goodLt_close hn) (ihn hns)))

theorem noOcc_cons {pat : List Char} {c : Char} {rest : List Char}
    (h : NoOcc pat (c :: rest)) : NoOcc pat rest := by
  intro u v he
  exact h (c :: u) v (by simp [he])

theorem noOcc_extend {pat ext s : List Char} (h : NoOcc pat s) :
    NoOcc (pat ++ ext) s := by
  intro u v he
  exact h u (ext ++ v) (by simpa [List.append_assoc] using he)

theorem noOcc_br_of_goodLt {s : List Char} (h : GoodLt s) :
    NoOcc ['<', 'b', 'r'] s := by
  intro u v he
  obtain ⟨n, r, hn, hv | hv⟩ := h u ('b' :: 'r' :: v) (by simpa using he)
  · simp only [VALID_TAGS, List.mem_cons, List.not_mem_nil, or_false] at hn
    rcases hn with hn | hn | hn | hn | hn | hn <;> subst hn <;> simp_all
  · simp at hv

theorem replAux_id {pat rep s : List Char} (h : NoOcc pat s) (f : Nat) :
    replAux pat rep f s = s := by
  induction f generalizing s with
  | zero => cases s <;> simp [replAux]
  | succ f ih =>
    cases s with
    | nil => simp [replAux]
    | cons c rest =>
      have hguard : ¬(pat.isPrefixOf (c :: rest) && !pat.isEmpty) = true := by
        intro hg
        obtain ⟨hp, hne⟩ := Bool.and_eq_true_iff.mp hg
        obtain ⟨t, ht⟩ := (List.isPrefixOf_iff_prefix.mp hp)
        exact h [] t (by simp [ht.symm])
      rw [replAux, if_neg hguard]
      exact congrArg (c :: ·) (ih (noOcc_cons h))

theorem pyReplace_id {pat rep s : List Char} (h : NoOcc pat s) :
    pyReplace pat rep s = s := replAux_id h _

theorem brAll_render {F : List Node} (h : saneF F) :
    brAll (renderF F) = renderF F := by
  have hbr : NoOcc ['<', 'b', 'r'] (renderF F) := noOcc_br_of_goodLt (goodLt_render h)
  have h1 : NoOcc "<br>".data (renderF F) := @noOcc_extend ['<', 'b', 'r'] ['>'] _ hbr
  have h2 : NoOcc "<br/>".data (renderF F) := @noOcc_extend ['<', 'b', 'r'] ['/', '>'] _ hbr
  have h3 : NoOcc "<br />".data (renderF F) := @noOcc_extend ['<', 'b', 'r'] [' ', '/', '>'] _ hbr
  rw [brAll, pyReplace_id h1, pyReplace_id h2, pyReplace_id h3]

theorem VALID_TAGS_eq :
    VALID_TAGS = [['b'], ['s', 't', 'r', 'o', 'n', 'g'], ['i'], ['e', 'm'], ['a'], ['p', 'r', 'e']] :=
  rfl

theorem amp_entity_data : "&amp;".data = ['&', 'a', 'm', 'p', ';'] := rfl

theorem lt_entity_data : "&lt;".data = ['&', 'l', 't', ';'] := rfl

theorem gt_entity_data : "&gt;".data = ['&', 'g', 't', ';'] := rfl

theorem entity_name_data :
    "a".data = ['a'] ∧ "am".data = ['a', 'm'] ∧ "amp".data = ['a', 'm', 'p'] ∧
    "l".data = ['l'] ∧ "lt".data = ['l', 't'] ∧ "g".data = ['g'] ∧ "gt".data = ['g', 't'] :=
  ⟨rfl, rfl, rfl, rfl, rfl, rfl, rfl⟩

theorem lex_escape (t rest : List Char) :
    lexAux .data (escapeChars t ++ rest) = t.map Tok.txt ++ lexAux .data rest := by
  induction t with
  | nil => simp [escapeChars]
  | cons c t ih =>
    by_cases h1 : c = '&'
    · subst h1
      simp [escapeChars, amp_entity_data, lexAux, entityViable, entityEmit,
        entity_name_data.1, entity_name_data.2.1, entity_name_data.2.2.1,
        entity_name_data.2.2.2.1, entity_name_data.2.2.2.2.1,
        entity_name_data.2.2.2.2.2.1, entity_name_data.2.2.2.2.2.2, ih]
    · by_cases h2 : c = '<'
      · subst h2
        simp [escapeChars, lt_entity_data, lexAux, entityViable, entityEmit,
          entity_name_data.1, entity_name_data.2.1, entity_name_data.2.2.1,
          entity_name_data.2.2.2.1, entity_name_data.2.2.2.2.1,
          entity_name_data.2.2.2.2.2.1, entity_name_data.2.2.2.2.2.2, ih]
      · by_cases h3 : c = '>'
        · subst h3
          simp [escapeChars, gt_entity_data, lexAux, entityViable, entityEmit,
            entity_name_data.1, entity_name_data.2.1, entity_name_data.2.2.1,
            entity_name_data.2.2.2.1, entity_name_data.2.2.2.2.1,
            entity_name_data.2.2.2.2.2.1, entity_name_data.2.2.2.2.2.2, ih]
        · simp [escapeChars, h1, h2, h3, lexAux, ih]

theorem lex_open {n : List Char} (h : n ∈ VALID_TAGS) (r : List Char) :
    lexAux .data ('<' :: (n ++ '>' :: r)) = .tagOpen n :: lexAux .data r := by
  rw [VALID_TAGS_eq] at h
  simp only [List.mem_cons, List.not_mem_nil, or_false] at h
  rcases h with h | h | h | h | h | h <;> subst h <;> simp [lexAux]

theorem lex_close {n : List Char} (h : n ∈ VALID_TAGS) (r : List Char) :
    lexAux .data ('<' :: '/' :: (n ++ '>' :: r)) = .tagClose n :: lexAux .data r := by
  rw [VALID_TAGS_eq] at h
  simp only [List.mem_cons, List.not_mem_nil, or_false] at h
  rcases h with h | h | h | h | h | h <;> subst h <;> simp [lexAux]

theorem lex_render {F : List Node} (h : saneF F) (rest : List Char) :
    lexAux .data (renderF F ++ rest) = toksF F ++ lexAux .data rest := by
  induction F using renderF.induct generalizing rest with
  | case1 => simp [renderF, toksF]
  | case2 s ns ih =>
    simp only [saneF] at h
    rw [renderF, toksF, List.append_assoc, lex_escape, ih h, List.append_assoc]
  | case3 n cs ns ihc ihn =>
    simp only [saneF] at h
    obtain ⟨hn, hcs, hns⟩ := h
    rw [renderF, toksF]
    simp only [List.append_assoc, List.cons_append, List.singleton_append, List.nil_append]
    rw [lex_open hn, ihc hcs, lex_close hn, ihn hns]

theorem foldl_txt (s : List Char) (st : BState) :
    List.foldl bstep st (s.map Tok.txt) =
      ⟨(s.map (fun c => Node.text [c])).reverse ++ st.cur, st.parents⟩ := by
  induction s generalizing st with
  | nil => simp
  | cons c s ih => simp [bstep, ih, List.append_assoc]

theorem foldl_toksF {F : List Node} (h : saneF F) (st : BState) :
    List.foldl bstep st (toksF F) =
      ⟨(explodeF F).reverse ++ st.cur, st.parents⟩ := by
  induction F using toksF.induct generalizing st with
  | case1 => simp [toksF, explodeF]
  | case2 s ns ih =>
    simp only [saneF] at h
    rw [toksF, List.foldl_append, foldl_txt, ih h]
    simp [explodeF, List.append_assoc]
  | case3 n cs ns ihc ihn =>
    simp only [saneF] at h
    obtain ⟨hn, hcs, hns⟩ := h
    rw [toksF, List.foldl_cons, List.foldl_append]
    have h1 : bstep st (.tagOpen n) = ⟨[], (n, st.cur) :: st.parents⟩ := rfl
    rw [h1, ihc hcs, List.foldl_cons]
    have h2 : bstep ⟨(explodeF cs).reverse ++ [], (n, st.cur) :: st.parents⟩ (.tagClose n)
        = ⟨.tag n (explodeF cs) :: st.cur, st.parents⟩ := by
      simp [bstep, popUntil]
    rw [h2, ihn hns]
    simp [explodeF, List.append_assoc]

theorem buildF_toksF {F : List Node} (h : saneF F) : buildF (toksF F) = explodeF F := by
  rw [buildF, foldl_toksF h]
  simp [closeAll, closeAllAux]

theorem saneF_append {a b : List Node} (ha : saneF a) (hb : saneF b) :
    saneF (a ++ b) := by
  induction a using explodeF.induct with
  | case1 => simpa using hb
  | case2 s ns ih =>
    simp only [saneF] at ha
    simpa only [List.cons_append, saneF] using ih ha
  | case3 n cs ns ihc ihn =>
    simp only [saneF] at ha
    simp only [List.cons_append, saneF]
    exact ⟨ha.1, ha.2.1, ihn ha.2.2⟩

theorem saneF_texts (s : List Char) : saneF (s.map (fun c => Node.text [c])) := by
  induction s with
  | nil => simp [saneF]
  | cons c s ih => simpa only [List.map_cons, saneF] using ih

theorem saneF_sanitizeF (F : List Node) : saneF (sanitizeF F) := by
  induction F using sanitizeF.induct with
  | case1 => simp [sanitizeF, saneF]
  | case2 s ns ih => simpa only [sanitizeF, saneF] using ih
  | case3 cs ns ih =>
    rw [sanitizeF, if_pos rfl]
    simpa only [saneF] using ih
  | case4 n cs ns hbq hv ihc ihn =>
    rw [sanitizeF, if_neg hbq, if_pos hv, saneF]
    exact ⟨hv, ihc, ihn⟩
  | case5 n cs ns hbq hv ihc ihn =>
    rw [sanitizeF, if_neg hbq, if_neg hv]
    exact saneF_append ihc ihn

theorem saneF_explodeF {F : List Node} (h : saneF F) : saneF (explodeF F) := by
  induction F using explodeF.induct with
  | case1 => simpa [explodeF] using h
  | case2 s ns ih =>
    simp only [saneF] at h
    rw [explodeF]
    exact saneF_append (saneF_texts s) (ih h)
  | case3 n cs ns ihc ihn =>
    simp only [saneF] at h
    rw [explodeF, saneF]
    exact ⟨h.1, ihc h.2.1, ihn h.2.2⟩

theorem sanitizeF_id_of_sane {F : List Node} (h : saneF F) : sanitizeF F = F := by
  induction F using sanitizeF.induct with
  | case1 => rw [sanitizeF]
  | case2 s ns ih =>
    simp only [saneF] at h
    rw [sanitizeF, ih h]
  | case3 cs ns ih =>
    simp only [saneF] at h
    exact absurd rfl (mem_VALID_TAGS_elim h.1).2.2
  | case4 n cs ns hbq hv ihc ihn =>
    simp only [saneF] at h
    rw [sanitizeF, if_neg hbq, if_pos hv, ihc h.2.1, ihn h.2.2]
  | case5 n cs ns hbq hv ihc ihn =>
    simp only [saneF] at h
    exact absurd h.1 hv

theorem renderF_texts (s : List Char) (X : List Node) :
    renderF (s.map (fun c => Node.text [c]) ++ X) = escapeChars s ++ renderF X := by
  induction s with
  | nil => simp [escapeChars]
  | cons c s ih => simp [renderF, ih, escapeChars, List.append_assoc]

theorem renderF_explodeF (F : List Node) : renderF (explodeF F) = renderF F := by
  induction F using explodeF.induct with
  | case1 => rw [explodeF]
  | case2 s ns ih => rw [explodeF, renderF_texts, ih, renderF]
  | case3 n cs ns ihc ihn => rw [explodeF, renderF, ihc, ihn, renderF]

theorem lex_renderF_eq_toksF {F : List Node} (h : saneF F) :
    lex (renderF F) = toksF F := by
  have h0 := lex_render h []
  rw [List.append_nil] at h0
  simpa [lex, lexAux, lexFlush] using h0

/-- Sanitizing an already sanitized forest render reproduces it. -/
theorem sanitize_render_fixed {F : List Node} (h : saneF F) :
    renderF (sanitizeF (buildF (lex (brAll (renderF F))))) = renderF F := by
  rw [brAll_render h, lex_renderF_eq_toksF h, buildF_toksF h,
    sanitizeF_id_of_sane (saneF_explodeF h), renderF_explodeF]

/-! ### Alias-branch lemmas -/

theorem splitOnChar_ne_nil (sep : Char) (l : List Char) : splitOnChar sep l ≠ [] := by
  cases l with
  | nil => simp [splitOnChar]
  | cons c rest =>
    rw [splitOnChar]
    rcases h : splitOnChar sep rest with - | ⟨h1, t1⟩
    · simp
    · by_cases hc : c = sep <;> simp [hc]

theorem splitOnChar_single {sep : Char} {l t : List Char}
    (h : splitOnChar sep l = [t]) : t = l := by
  induction l generalizing t with
  | nil => simpa [splitOnChar] using h.symm
  | cons c rest ih =>
    rw [splitOnChar] at h
    rcases h2 : splitOnChar sep rest with - | ⟨h1, t1⟩
    · exact absurd h2 (splitOnChar_ne_nil sep rest)
    · rw [h2] at h
      dsimp only at h
      by_cases hc : c = sep
      · rw [if_pos hc] at h
        simp at h
      · rw [if_neg hc] at h
        injection h with h3 h4
        subst h4
        rw [← h3, ih h2]

theorem pySplit_ne_nil (sep : Char) (s : String) : pySplit sep s ≠ [] := by
  rw [pySplit]
  intro h
  exact splitOnChar_ne_nil sep s.data (List.map_eq_nil_iff.mp h)

theorem pySplit_single {sep : Char} {s x : String} (h : pySplit sep s = [x]) : x = s := by
  rw [pySplit] at h
  rcases h2 : splitOnChar sep s.data with - | ⟨l0, ls⟩
  · exact absurd h2 (splitOnChar_ne_nil sep s.data)
  · rw [h2, List.map_cons] at h
    injection h with hx hls
    have hl0 : l0 = s.data := splitOnChar_single (by rw [h2, List.map_eq_nil_iff.mp hls])
    rw [← hx, hl0]
    rfl

theorem aliasTgId_ok {host al : String} (hhost : host ≠ "#telegram")
    (hm : aliasMatches host al = true) : aliasTgId al = .ok (aliasChatId al) := by
  simp only [aliasMatches, Bool.and_eq_true, decide_eq_true_eq] at hm
  rcases h2 : pySplit '_' al with - | ⟨p0, ptail⟩
  · exact absurd h2 (pySplit_ne_nil '_' al)
  · rcases ptail with - | ⟨p1, prest⟩
    · exfalso
      have hal : p0 = al := pySplit_single h2
      rw [h2] at hm
      simp only [List.headD_cons] at hm
      have hta : al = "#telegram" := by rw [← hal, hm.1]
      apply hhost
      rw [← hm.2, hta]
      decide
    · simp only [aliasChatId, aliasTgId, h2]

theorem insertAliasLinks_eq {host : String} (room : String) (als : List String)
    (hhost : host ≠ "#telegram") :
    insertAliasLinks host room als =
      ((als.filter (aliasMatches host)).map (fun a => ⟨room, aliasChatId a, true⟩), none) := by
  induction als with
  | nil => simp [insertAliasLinks]
  | cons a rest ih =>
    by_cases hm : aliasMatches host a = true
    · rw [insertAliasLinks, if_pos hm, aliasTgId_ok hhost hm]
      dsimp only
      rw [ih]
      simp [List.filter_cons, hm]
    · rw [insertAliasLinks, if_neg hm, ih]
      simp [List.filter_cons, hm]

theorem filter_room_map_nil (room : String) (f : String → String) (xs : List String) :
    (xs.map (fun a => (⟨room, f a, true⟩ : ChatLink))).filter
      (fun l => decide (l.matrix_room ≠ room)) = [] := by
  induction xs with
  | nil => rfl
  | cons x xs ih => simp [ih]

/-- C5: the alias-change handler is an idempotent replace.  It deletes
every ChatLink row of the room and inserts exactly one active link per
alias matching the bridge naming pattern (checked by the split-based
guard of the source), ignoring non-matching aliases; running the same
alias list twice leaves the table in the same state as running it once.
The hypothesis excludes the degenerate configuration in which the bridge
homeserver domain is the literal `#telegram`, where the source would
raise IndexError on the alias `#telegram`. -/
theorem C5_alias_replace_idempotent (host room : String) (als : List String)
    (t : List ChatLink) (hhost : host ≠ "#telegram") :
    processAliases host room als (processAliases host room als t).1 =
        processAliases host room als t ∧
      (insertAliasLinks host room als).1 =
        (als.filter (aliasMatches host)).map (fun a => ⟨room, aliasChatId a, true⟩) ∧
      (insertAliasLinks host room als).2 = none := by
  have hA := insertAliasLinks_eq room als hhost
  refine ⟨?_, by rw [hA], by rw [hA]⟩
  rw [processAliases, processAliases, hA]
  dsimp only
  rw [List.filter_append, filter_room_map_nil, List.append_nil, List.filter_filter]
  simp only [Bool.and_self]

/-- C6: the rich-text sanitizer is idempotent: for every input string,
`sanitize_html (sanitize_html x) = sanitize_html x`.  The first pass
leaves only allow-listed tags and escaped text, which the second pass
parses and renders back unchanged. -/
theorem C6_sanitize_html_idempotent (x : String) :
    sanitize_html (sanitize_html x) = sanitize_html x := by
  have hs : saneF (sanitizeF (buildF (lex (brAll x.data)))) := saneF_sanitizeF _
  show sanitize_html ⟨renderF (sanitizeF (buildF (lex (brAll x.data))))⟩ =
    (⟨renderF (sanitizeF (buildF (lex (brAll x.data))))⟩ : String)
  rw [sanitize_html]
  exact congrArg String.mk (sanitize_render_fixed hs)

/-- Concrete value of the blockquote scenario of the spec. -/
theorem sanitize_bq_ab : sanitize_html "<blockquote>a\nb</blockquote>" = "a\n" := by
  simp [sanitize_html, brAll, pyReplace, replAux, lex, lexAux, lexFlush, entityViable,
    entityEmit, buildF, bstep, popUntil, closeAll, closeAllAux, sanitizeF, innerTextF,
    bqString, quoteLines, renderF, escapeChars, List.isPrefixOf]

/-- C7 counterexample: sanitizing a blockquote containing the two-line
text `a\nb` does not yield `> a\n> b`. -/
theorem C7_counterexample :
    sanitize_html "<blockquote>a\nb</blockquote>" ≠ "> a\n> b" := by
  rw [sanitize_bq_ab]
  decide

/-- C7 amended: the blockquote rewrite prefixes every line with `> `
after a leading newline and then slices off the first three and last
three characters (`[3:-3]`), so `<blockquote>a\nb</blockquote>`
sanitizes to `a\n` rather than `> a\n> b`; in general a blockquote is
replaced by the text `bqString` of its inner text. -/
theorem C7_amended_blockquote :
    sanitize_html "<blockquote>a\nb</blockquote>" = "a\n" ∧
      ∀ cs ns, sanitizeF (.tag "blockquote".data cs :: ns) =
        .text (bqString (innerTextF cs)) :: sanitizeF ns := by
  refine ⟨sanitize_bq_ab, fun cs ns => ?_⟩
  rw [sanitizeF, if_pos rfl]

/-! ### Handler helper lemmas -/

theorem umda_tables (fmt : Int → String) (orc : TgOracles) (db : DBState) (s : TgSender) :
    (update_matrix_displayname_avatar fmt orc db s).2.chat_links = db.chat_links ∧
    (update_matrix_displayname_avatar fmt orc db s).2.matrix_users = db.matrix_users ∧
    (update_matrix_displayname_avatar fmt orc db s).2.messages = db.messages := by
  rw [update_matrix_displayname_avatar]
  cases hfind : db.tg_users.find? (fun u => u.tg_id = s.id) <;> simp

theorem umda_filter_nil (p : ClientOp → Bool)
    (hp1 : ∀ i, p (.tgGetProfilePhotos i) = false)
    (hp2 : ∀ u n, p (.mxSetDisplayname u n) = false)
    (hp3 : ∀ u, p (.mxUploadMedia u) = false)
    (hp4 : ∀ u, p (.mxSetAvatar u) = false)
    (fmt : Int → String) (orc : TgOracles) (db : DBState) (s : TgSender) :
    (update_matrix_displayname_avatar fmt orc db s).1.filter p = [] := by
  rw [update_matrix_displayname_avatar]
  cases hfind : db.tg_users.find? (fun u => u.tg_id = s.id) <;>
    cases hpp : orc.profilePhotos <;>
    dsimp only <;>
    (repeat' split) <;>
    simp [List.filter_append, hp1, hp2, hp3, hp4]

theorem rjm_filter_sends (orc : TgOracles) (chat : TgChat) (room_id user_id : String) :
    (register_join_matrix orc chat room_id user_id).filter isMxSendOp = [] := by
  rw [register_join_matrix]
  cases hpp : orc.profilePhotos <;> dsimp only <;> (repeat' split) <;>
    simp [List.filter_append, isMxSendOp]

theorem rjm_filter_registers (orc : TgOracles) (chat : TgChat) (room_id user_id : String) :
    (register_join_matrix orc chat room_id user_id).filter isRegisterOp =
      [.mxRegister (((pySplit ':' user_id).headD "").drop 1)] := by
  rw [register_join_matrix]
  cases hpp : orc.profilePhotos <;> dsimp only <;> (repeat' split) <;>
    simp [List.filter_append, isRegisterOp]

theorem rjm_filter_joins (orc : TgOracles) (chat : TgChat) (room_id user_id : String) :
    (register_join_matrix orc chat room_id user_id).filter isJoinOp =
      [.mxJoin room_id user_id] := by
  rw [register_join_matrix]
  cases hpp : orc.profilePhotos <;> dsimp only <;> (repeat' split) <;>
    simp [List.filter_append, isJoinOp]

theorem splitOnChar_append_sep {sep : Char} {a : List Char} (b : List Char)
    (h : sep ∉ a) : splitOnChar sep (a ++ sep :: b) = a :: splitOnChar sep b := by
  induction a with
  | nil =>
    rw [List.nil_append, splitOnChar]
    rcases hsb : splitOnChar sep b with - | ⟨h1, t1⟩
    · exact absurd hsb (splitOnChar_ne_nil sep b)
    · dsimp only
      rw [if_pos rfl]
  | cons c a2 ih =>
    have hc : ¬ c = sep := fun hh => h (by rw [← hh]; exact List.mem_cons_self c a2)
    have ha : sep ∉ a2 := fun hh => h (List.mem_cons_of_mem c hh)
    rw [List.cons_append, splitOnChar, ih ha]
    dsimp only
    rw [if_neg hc]

theorem get_username_wellformed (lp domain : String) (h : ':' ∉ lp.data) :
    get_username ("@" ++ lp ++ ":" ++ domain) = lp := by
  have hdata : ("@" ++ lp ++ ":" ++ domain).data = ('@' :: lp.data) ++ ':' :: domain.data := by
    simp [String.data_append]
  have hmem : ':' ∉ '@' :: lp.data := by simp [h]
  rw [get_username, pySplit, hdata, splitOnChar_append_sep _ hmem]
  simp only [List.map_cons, List.headD_cons]
  apply String.ext
  simp [String.data_drop, List.asString]

/-- C4: a message event whose room (Room side) or chat (Group side) has
no ChatLink row is dropped with only a log line: no platform client call
is made, no store row is written, and the event is not an error. -/
theorem C4_unlinked_drop
    (host : String) (hide : Bool) (orc : MatrixOracles) (db : DBState)
    (room : String) (ev : MatrixEvent) (fmt : Int → String) (torc : TgOracles)
    (tdb : DBState) (chat : TgChat) (msgText : String)
    (hty : ev.etype = some "m.room.message")
    (hroom : ev.room_id = some room)
    (hfresh : eventFresh ev = true)
    (hnolink : db.chat_links.find? (fun l => l.matrix_room = room) = none)
    (htnolink : tdb.chat_links.find? (fun l => l.tg_room = toString chat.id) = none) :
    processMatrixEvent host hide orc db ev = ⟨[], db, none⟩ ∧
    aiotg_message fmt torc tdb chat msgText = ⟨[], tdb, none⟩ := by
  constructor
  · simp [processMatrixEvent, hfresh, hty, processLinkedEvent, hroom, hnolink]
  · simp [aiotg_message, htnolink]

/-- C9: the ghost test looks only at the localpart: for every localpart
(free of colons) and every homeserver domain, `matrix_is_telegram` on
`@localpart:domain` is exactly `localpart.startsWith "telegram_"`; a
message or sticker event in a linked room whose sender passes the test is
dropped without any client call, store write or error. -/
theorem C9_ghost_classification
    (lp domain : String) (hlp : ':' ∉ lp.data)
    (host : String) (hide : Bool) (orc : MatrixOracles) (db : DBState)
    (room uid ty : String) (ev : MatrixEvent) (link : ChatLink)
    (hty : ev.etype = some ty) (hty2 : ty = "m.room.message" ∨ ty = "m.sticker")
    (hroom : ev.room_id = some room)
    (hfresh : eventFresh ev = true)
    (hlink : db.chat_links.find? (fun l => l.matrix_room = room) = some link)
    (huid : ev.user_id = some uid) (hghost : matrix_is_telegram uid = true) :
    matrix_is_telegram ("@" ++ lp ++ ":" ++ domain) = pyStartsWith lp "telegram_" ∧
    processMatrixEvent host hide orc db ev = ⟨[], db, none⟩ := by
  constructor
  · rw [matrix_is_telegram, get_username_wellformed lp domain hlp]
  · rcases hty2 with rfl | rfl
    · simp [processMatrixEvent, hfresh, hty, processLinkedEvent, hroom, hlink, huid,
        processMessageBranch, hghost]
    · simp [processMatrixEvent, hfresh, hty, processLinkedEvent, hroom, hlink, huid,
        processStickerBranch, hghost]

/-- C10: a Group-side reply whose quoted message carries none of `text`,
`photo` or `sticker` is dropped before the send: the handler returns
without error, no Room-side message is sent, and no Message row is
written. -/
theorem C10_reply_without_content_dropped
    (fmt : Int → String) (orc : TgOracles) (db : DBState) (chat : TgChat)
    (msgText : String) (link : ChatLink) (re : TgReply)
    (h7 : db.chat_links.find? (fun l => l.tg_room = toString chat.id) = some link)
    (h8 : chat.message.forward_from = none)
    (h9 : chat.message.reply_to_message = some re)
    (hrt : re.text = none) (hph : re.photo = false) (hst : re.sticker = false) :
    (aiotg_message fmt orc db chat msgText).exc = none ∧
    (aiotg_message fmt orc db chat msgText).ops.filter isMxSendOp = [] ∧
    (aiotg_message fmt orc db chat msgText).db.messages = db.messages := by
  have hfil := umda_filter_nil isMxSendOp (fun _ => rfl) (fun _ _ => rfl) (fun _ => rfl)
    (fun _ => rfl) fmt orc db chat.sender
  have ht := umda_tables fmt orc db chat.sender
  simp [aiotg_message, h7, aiotgMessageBranch, h8, h9, hrt, hph, hst, hfil, ht.2.2]

/-- C2: when the first Room-side send of a Group-side message is rejected
with `M_FORBIDDEN`, the handler performs exactly one provisioning cycle
(one registration and one join, with display name and best-effort avatar
between them) and replays the send exactly once under the fresh
transaction id `txn ++ "join"`, which differs from the failed attempt's
id; no third send is attempted whatever the replay returns, and no
correlation row is recorded. -/
theorem C2_forbidden_single_replay
    (fmt : Int → String) (orc : TgOracles) (db : DBState) (chat : TgChat)
    (msgText : String) (link : ChatLink)
    (h7 : db.chat_links.find? (fun l => l.tg_room = toString chat.id) = some link)
    (h8 : chat.message.forward_from = none)
    (h9 : chat.message.reply_to_message = none)
    (hf : orc.mxSend 0 = .errcode "M_FORBIDDEN") :
    (aiotg_message fmt orc db chat msgText).ops.filter isMxSendOp =
      [.mxSend link.matrix_room (fmt chat.sender.id)
         (pyQuote (toString chat.message.message_id ++ ":" ++ toString chat.id)) msgText none,
       .mxSend link.matrix_room (fmt chat.sender.id)
         (pyQuote (toString chat.message.message_id ++ ":" ++ toString chat.id) ++ "join")
         msgText none] ∧
    (aiotg_message fmt orc db chat msgText).ops.filter isRegisterOp =
      [.mxRegister (((pySplit ':' (fmt chat.sender.id)).headD "").drop 1)] ∧
    (aiotg_message fmt orc db chat msgText).ops.filter isJoinOp =
      [.mxJoin link.matrix_room (fmt chat.sender.id)] ∧
    pyQuote (toString chat.message.message_id ++ ":" ++ toString chat.id) ++ "join" ≠
      pyQuote (toString chat.message.message_id ++ ":" ++ toString chat.id) ∧
    (aiotg_message fmt orc db chat msgText).db.messages = db.messages := by
  have hfilS := umda_filter_nil isMxSendOp (fun _ => rfl) (fun _ _ => rfl) (fun _ => rfl)
    (fun _ => rfl) fmt orc db chat.sender
  have hfilR := umda_filter_nil isRegisterOp (fun _ => rfl) (fun _ _ => rfl) (fun _ => rfl)
    (fun _ => rfl) fmt orc db chat.sender
  have hfilJ := umda_filter_nil isJoinOp (fun _ => rfl) (fun _ _ => rfl) (fun _ => rfl)
    (fun _ => rfl) fmt orc db chat.sender
  have ht := umda_tables fmt orc db chat.sender
  refine ⟨?_, ?_, ?_, ?_, ?_⟩
  · simp [aiotg_message, h7, aiotgMessageBranch, h8, h9, hf, List.filter_append,
      hfilS, rjm_filter_sends, isMxSendOp]
  · simp [aiotg_message, h7, aiotgMessageBranch, h8, h9, hf, List.filter_append,
      hfilR, rjm_filter_registers, isRegisterOp]
  · simp [aiotg_message, h7, aiotgMessageBranch, h8, h9, hf, List.filter_append,
      hfilJ, rjm_filter_joins, isJoinOp]
  · intro hEq
    have hlen := congrArg String.length hEq
    rw [String.length_append, show ("join" : String).length = 4 from rfl] at hlen
    omega
  · simp [aiotg_message, h7, aiotgMessageBranch, h8, h9, hf, ht.2.2]

/-- C8: a Group-side reply is always translated and sent without error;
when no Message row matches `(chat id, quoted message id)`, the citation
uses the inline sender name and quoted text, and when a row matches, it
references the stored room/event location and cached display name. -/
theorem C8_reply_fallback
    (fmt : Int → String) (orc : TgOracles) (db : DBState) (chat : TgChat)
    (msgText : String) (link : ChatLink) (re : TgReply) (fu : TgSender)
    (t : String) (rmid d : Int)
    (h7 : db.chat_links.find? (fun l => l.tg_room = toString chat.id) = some link)
    (h8 : chat.message.forward_from = none)
    (h9 : chat.message.reply_to_message = some re)
    (hrt : re.text = some t)
    (hfu : re.fromUser = some fu)
    (hdate : re.date = some d)
    (hmid : re.message_id = some rmid) :
    (aiotg_message fmt orc db chat msgText).exc = none ∧
    (db.messages.find? (fun m => m.tg_group_id = chat.message.chat_id &&
        m.tg_message_id = rmid) = none →
      ((aiotg_message fmt orc db chat msgText).ops.filter isMxSendOp).head? =
        some (.mxSend link.matrix_room (fmt chat.sender.id)
          (pyQuote (toString chat.message.message_id ++ ":" ++ toString chat.id))
          ("Reply to " ++ tgDisplayName fu ++ ":\n" ++ quoteEachLine t ++ "\n\n" ++ msgText)
          (some ("<i>Reply to " ++ pyHtmlEscape (tgDisplayName fu) ++ ":</i><br />" ++
            ("<blockquote>" ++ nl2br (pyHtmlEscape t) ++ "</blockquote>") ++ "<p>" ++
            nl2br (pyHtmlEscape msgText) ++ "</p>")))) ∧
    (∀ row, db.messages.find? (fun m => m.tg_group_id = chat.message.chat_id &&
        m.tg_message_id = rmid) = some row →
      ((aiotg_message fmt orc db chat msgText).ops.filter isMxSendOp).head? =
        some (.mxSend link.matrix_room (fmt chat.sender.id)
          (pyQuote (toString chat.message.message_id ++ ":" ++ toString chat.id))
          ("Reply to " ++ row.displayname ++ ":\n" ++ quoteEachLine t ++ "\n\n" ++ msgText)
          (some ("<i><a href=\"https://matrix.to/#/" ++ pyHtmlEscape link.matrix_room ++ "/" ++
            pyHtmlEscape row.matrix_event_id ++ "\">Reply to " ++
            pyHtmlEscape row.displayname ++ "</a>:</i><br />" ++
            ("<blockquote>" ++ nl2br (pyHtmlEscape t) ++ "</blockquote>") ++ "<p>" ++
            nl2br (pyHtmlEscape msgText) ++ "</p>")))) := by
  have hfilS := umda_filter_nil isMxSendOp (fun _ => rfl) (fun _ _ => rfl) (fun _ => rfl)
    (fun _ => rfl) fmt orc db chat.sender
  have ht := umda_tables fmt orc db chat.sender
  refine ⟨?_, ?_, ?_⟩
  · rcases hAny : db.messages.find? (fun m => m.tg_group_id = chat.message.chat_id &&
        m.tg_message_id = rmid) with - | row
    · rcases horc : orc.mxSend 0 with e | c | -
      · simp [aiotg_message, h7, aiotgMessageBranch, h8, h9, hrt, hfu, hdate, hmid,
          ht.2.2, hAny, horc]
      · by_cases hc : c = "M_FORBIDDEN" <;>
          simp [aiotg_message, h7, aiotgMessageBranch, h8, h9, hrt, hfu, hdate, hmid,
            ht.2.2, hAny, horc, hc]
      · simp [aiotg_message, h7, aiotgMessageBranch, h8, h9, hrt, hfu, hdate, hmid,
          ht.2.2, hAny, horc]
    · rcases horc : orc.mxSend 0 with e | c | -
      · simp [aiotg_message, h7, aiotgMessageBranch, h8, h9, hrt, hfu, hdate, hmid,
          ht.2.2, hAny, horc]
      · by_cases hc : c = "M_FORBIDDEN" <;>
          simp [aiotg_message, h7, aiotgMessageBranch, h8, h9, hrt, hfu, hdate, hmid,
            ht.2.2, hAny, horc, hc]
      · simp [aiotg_message, h7, aiotgMessageBranch, h8, h9, hrt, hfu, hdate, hmid,
          ht.2.2, hAny, horc]
  · intro hrow
    rcases horc : orc.mxSend 0 with e | c | -
    · simp [aiotg_message, h7, aiotgMessageBranch, h8, h9, hrt, hfu, hdate, hmid,
        ht.2.2, hrow, horc, List.filter_append, hfilS, rjm_filter_sends, isMxSendOp]
    · by_cases hc : c = "M_FORBIDDEN" <;>
        simp [aiotg_message, h7, aiotgMessageBranch, h8, h9, hrt, hfu, hdate, hmid,
          ht.2.2, hrow, horc, hc, List.filter_append, hfilS, rjm_filter_sends, isMxSendOp]
    · simp [aiotg_message, h7, aiotgMessageBranch, h8, h9, hrt, hfu, hdate, hmid,
        ht.2.2, hrow, horc, List.filter_append, hfilS, rjm_filter_sends, isMxSendOp]
  · intro row hrow
    rcases horc : orc.mxSend 0 with e | c | -
    · simp [aiotg_message, h7, aiotgMessageBranch, h8, h9, hrt, hfu, hdate, hmid,
        ht.2.2, hrow, horc, List.filter_append, hfilS, rjm_filter_sends, isMxSendOp]
    · by_cases hc : c = "M_FORBIDDEN" <;>
        simp [aiotg_message, h7, aiotgMessageBranch, h8, h9, hrt, hfu, hdate, hmid,
          ht.2.2, hrow, horc, hc, List.filter_append, hfilS, rjm_filter_sends, isMxSendOp]
    · simp [aiotg_message, h7, aiotgMessageBranch, h8, h9, hrt, hfu, hdate, hmid,
        ht.2.2, hrow, horc, List.filter_append, hfilS, rjm_filter_sends, isMxSendOp]

/-- C1 counterexample: in the linked chat of the fixtures the first
Room-side send is rejected with `M_FORBIDDEN` and the replay (the second
`send_matrix_message` call) succeeds with event id `$E`, yet zero Message
rows are inserted: the replay response is assigned to `j` but the
`elif 'event_id' in j` recording branch is skipped.  The claim would
require exactly one row for an event whose outbound send succeeds and
yields a remote identifier. -/
theorem C1_counterexample :
    (aiotg_message exFmt orcForbiddenThenOk exDb exChatPlain "hi").db.messages = [] ∧
    orcForbiddenThenOk.mxSend 1 = .ok "$E" ∧
    ((aiotg_message exFmt orcForbiddenThenOk exDb exChatPlain "hi").ops.filter
      isMxSendOp).length = 2 ∧
    (aiotg_message exFmt orcForbiddenThenOk exDb exChatPlain "hi").exc = none := by
  decide

/-- C1 amended: a Message row is recorded exactly for the send whose
response is inspected.  Room→Group: a text-kind event whose Telegram
send succeeds inserts exactly one row with the response's chat and
message ids, and a failed send inserts none.  Group→Room: an initial
send whose response carries an event id inserts exactly one row; when
the response is an error (in particular `M_FORBIDDEN`, even though the
triggered replay may itself succeed) or carries no event id, no row is
inserted. -/
theorem C1_amended_rows
    (host : String) (hide : Bool) (orc : MatrixOracles) (db : DBState)
    (room uid eid mt msg : String) (content : MatrixContent) (su : MatrixUser)
    (link : ChatLink) (sk : Option String) (pc : Option PrevContent)
    (fmt : Int → String) (torc : TgOracles) (tdb : DBState) (chat : TgChat)
    (msgText : String) (tlink : ChatLink)
    (h1 : content.msgtype = some mt)
    (h2 : mt = "m.text" ∨ mt = "m.notice" ∨ mt = "m.emote")
    (h3 : matrix_is_telegram uid = false)
    (h4 : db.matrix_users.find? (fun s => s.matrix_id = uid) = some su)
    (h5 : format_matrix_msg content = .ok msg)
    (h6 : db.chat_links.find? (fun l => l.matrix_room = room) = some link)
    (h7 : tdb.chat_links.find? (fun l => l.tg_room = toString chat.id) = some tlink)
    (h8 : chat.message.forward_from = none)
    (h9 : chat.message.reply_to_message = none) :
    (∀ c m : Int,
      orc.tgSend (tgTextFor mt (pyOrStr su.name (get_username uid)) msg) = .ok c m →
      (processMatrixEvent host hide orc db
        ⟨some "m.room.message", some room, some uid, sk, some content,
          some eid, none, pc⟩).db.messages
        = db.messages ++ [⟨c, m, room, eid, pyOrStr su.name (get_username uid)⟩]) ∧
    (orc.tgSend (tgTextFor mt (pyOrStr su.name (get_username uid)) msg) = .err →
      (processMatrixEvent host hide orc db
        ⟨some "m.room.message", some room, some uid, sk, some content,
          some eid, none, pc⟩).db.messages = db.messages ∧
      (processMatrixEvent host hide orc db
        ⟨some "m.room.message", some room, some uid, sk, some content,
          some eid, none, pc⟩).exc = none) ∧
    (∀ e, torc.mxSend 0 = .ok e →
      (aiotg_message fmt torc tdb chat msgText).db.messages
        = tdb.messages ++ [⟨chat.message.chat_id, chat.message.message_id,
            tlink.matrix_room, e, tgDisplayName chat.sender⟩]) ∧
    (∀ code, torc.mxSend 0 = .errcode code →
      (aiotg_message fmt torc tdb chat msgText).db.messages = tdb.messages) ∧
    (torc.mxSend 0 = .other →
      (aiotg_message fmt torc tdb chat msgText).db.messages = tdb.messages) := by
  have ht := umda_tables fmt torc tdb chat.sender
  refine ⟨?_, ?_, ?_, ?_, ?_⟩
  · intro c m hs
    rcases h2 with rfl | rfl | rfl <;>
      simp [processMatrixEvent, eventFresh, processLinkedEvent, h6,
        processMessageBranch, h3, resolveMatrixSender, h4, h1, h5, hs, recordTgRow]
  · intro hs
    rcases h2 with rfl | rfl | rfl <;>
      simp [processMatrixEvent, eventFresh, processLinkedEvent, h6,
        processMessageBranch, h3, resolveMatrixSender, h4, h1, h5, hs]
  · intro e hs
    simp [aiotg_message, h7, aiotgMessageBranch, h8, h9, hs, ht.2.2]
  · intro code hs
    by_cases hc : code = "M_FORBIDDEN" <;>
      simp [aiotg_message, h7, aiotgMessageBranch, h8, h9, hs, hc, ht.2.2]
  · intro hs
    simp [aiotg_message, h7, aiotgMessageBranch, h8, h9, hs, ht.2.2]

/-- C3 counterexample: a batch whose first event is a message in a linked
room from a cached sender but with no `content` key aborts the whole
transaction with an uncaught KeyError: the transport answers 500 instead
of 200, the following well-formed event is never processed (no client
call is made at all), and no row is written. -/
theorem C3_counterexample :
    (matrix_transaction "h" false (fun _ => exMxOrc) exDb [exEvNoContent, exEvText]).1 = 500 ∧
    (matrix_transaction "h" false (fun _ => exMxOrc) exDb [exEvNoContent, exEvText]).2.2 = [] ∧
    (matrix_transaction "h" false (fun _ => exMxOrc) exDb
      [exEvNoContent, exEvText]).2.1.messages = [] ∧
    (matrix_transaction "h" false (fun _ => exMxOrc) exDb [exEvText]).1 = 200 := by
  decide

/-- C3 amended: only specific malformations are tolerated.  A message
event in a linked room whose content lacks `msgtype` is dropped and the
batch continues with the remaining events (whose processing alone decides
the acknowledgment, 200 when they all pass); an event lacking the
`content` key raises an uncaught KeyError that aborts the batch: the
remaining events are never examined and the transport answers 500, not
200. -/
theorem C3_amended_malformed
    (host : String) (hide : Bool) (orc : Nat → MatrixOracles) (db : DBState)
    (room uid eid : String) (su : MatrixUser) (link : ChatLink)
    (rest : List MatrixEvent)
    (h3 : matrix_is_telegram uid = false)
    (h4 : db.matrix_users.find? (fun s => s.matrix_id = uid) = some su)
    (h6 : db.chat_links.find? (fun l => l.matrix_room = room) = some link) :
    (matrix_transaction host hide orc db
      (⟨some "m.room.message", some room, some uid, none, none, some eid, none, none⟩
        :: rest)) = (500, db, []) ∧
    (∀ content : MatrixContent, content.msgtype = none →
      matrix_transaction host hide orc db
        (⟨some "m.room.message", some room, some uid, none, some content, some eid,
          none, none⟩ :: rest) =
      matrixTransactionAux host hide orc 1 db [] rest) := by
  constructor
  · simp [matrix_transaction, matrixTransactionAux, processMatrixEvent, eventFresh,
      processLinkedEvent, h6, processMessageBranch, h3, resolveMatrixSender, h4]
  · intro content hmt
    simp [matrix_transaction, matrixTransactionAux, processMatrixEvent, eventFresh,
      processLinkedEvent, h6, processMessageBranch, h3, resolveMatrixSender, h4, hmt]

/-! ### Witnesses -/

/-- Witness for C1: the hypotheses hold at the fixtures, a successful
Telegram send records the one expected row, and a successful initial
Matrix send records the one expected row. -/
theorem C1_amended_rows_witness :
    (processMatrixEvent "h" false exMxOrc exDb exEvText).db.messages =
      exDb.messages ++ [⟨-100, 5, "!r:h", "$ev1", "Alice"⟩] ∧
    (aiotg_message exFmt orcTgOk exDb exChatPlain "hi").db.messages =
      exDb.messages ++ [⟨-100, 7, "!r:h", "$E", "Xx (Telegram)"⟩] := by
  have h := C1_amended_rows "h" false exMxOrc exDb "!r:h" "@alice:h" "$ev1" "m.text" "hi"
    ⟨some "m.text", some "hi", none, none, none, none, none, none⟩ ⟨"@alice:h", some "Alice"⟩
    ⟨"!r:h", "-100", true⟩ none none exFmt orcTgOk exDb exChatPlain "hi" ⟨"!r:h", "-100", true⟩
    (by decide) (Or.inl rfl) (by decide) (by decide) rfl (by decide) (by decide)
    (by decide) (by decide)
  constructor
  · have h1 := h.1 (-100) 5 (by decide)
    simpa [exEvText, exDb] using h1
  · have h3 := h.2.2.1 "$E" (by decide)
    simpa using h3

/-- Witness for C2: at the forbidden-then-ok fixtures the two sends, the
single registration and join, and the empty message table are concrete. -/
theorem C2_forbidden_single_replay_witness :
    (aiotg_message exFmt orcForbiddenThenOk exDb exChatPlain "hi").ops.filter isMxSendOp =
      [.mxSend "!r:h" "@telegram_99:h" "7%3A-100" "hi" none,
       .mxSend "!r:h" "@telegram_99:h" "7%3A-100join" "hi" none] ∧
    (aiotg_message exFmt orcForbiddenThenOk exDb exChatPlain "hi").ops.filter isRegisterOp =
      [.mxRegister "telegram_99"] ∧
    (aiotg_message exFmt orcForbiddenThenOk exDb exChatPlain "hi").ops.filter isJoinOp =
      [.mxJoin "!r:h" "@telegram_99:h"] ∧
    (aiotg_message exFmt orcForbiddenThenOk exDb exChatPlain "hi").db.messages = [] := by
  have h := C2_forbidden_single_replay exFmt orcForbiddenThenOk exDb exChatPlain "hi"
    ⟨"!r:h", "-100", true⟩ (by decide) (by decide) (by decide) (by decide)
  refine ⟨?_, ?_, ?_, ?_⟩
  · rw [h.1]; decide
  · rw [h.2.1]; decide
  · rw [h.2.2.1]; decide
  · rw [h.2.2.2.2]; rfl

/-- Witness for C3: at the fixtures, the missing-content batch answers
500 with nothing processed, and the missing-msgtype batch is dropped
with the loop continuing and a 200 acknowledgment. -/
theorem C3_amended_malformed_witness :
    matrix_transaction "h" false (fun _ => exMxOrc) exDb [exEvNoContent] = (500, exDb, []) ∧
    matrix_transaction "h" false (fun _ => exMxOrc) exDb [exEvNoMsgtype] = (200, exDb, []) := by
  have h := C3_amended_malformed "h" false (fun _ => exMxOrc) exDb "!r:h" "@alice:h" "$ev2"
    ⟨"@alice:h", some "Alice"⟩ ⟨"!r:h", "-100", true⟩ [] (by decide) (by decide) (by decide)
  have h2 := C3_amended_malformed "h" false (fun _ => exMxOrc) exDb "!r:h" "@alice:h" "$ev3"
    ⟨"@alice:h", some "Alice"⟩ ⟨"!r:h", "-100", true⟩ [] (by decide) (by decide) (by decide)
  constructor
  · have h1 := h.1
    simpa [exEvNoContent] using h1
  · have h3 := h2.2 ⟨none, some "hi", none, none, none, none, none, none⟩ (by decide)
    simpa [exEvNoMsgtype, matrixTransactionAux] using h3

/-- Witness for C4: at the empty store both handlers drop the message
event with no client call, no write and no error. -/
theorem C4_unlinked_drop_witness :
    processMatrixEvent "h" false exMxOrc exDbEmpty exEvText = ⟨[], exDbEmpty, none⟩ ∧
    aiotg_message exFmt orcTgOk exDbEmpty exChatPlain "hi" = ⟨[], exDbEmpty, none⟩ :=
  C4_unlinked_drop "h" false exMxOrc exDbEmpty "!r:h" exEvText exFmt orcTgOk exDbEmpty
    exChatPlain "hi" (by decide) (by decide) (by decide) (by decide) (by decide)

/-- Witness for C5: a concrete alias list replayed twice, with one
matching and one non-matching alias. -/
theorem C5_alias_replace_idempotent_witness :
    processAliases "h" "!r:h" ["#telegram_42:h", "#x:h"]
        (processAliases "h" "!r:h" ["#telegram_42:h", "#x:h"] [⟨"!r:h", "9", true⟩]).1 =
      processAliases "h" "!r:h" ["#telegram_42:h", "#x:h"] [⟨"!r:h", "9", true⟩] ∧
    (insertAliasLinks "h" "!r:h" ["#telegram_42:h", "#x:h"]).1 =
      [⟨"!r:h", "42", true⟩] := by
  have h := C5_alias_replace_idempotent "h" "!r:h" ["#telegram_42:h", "#x:h"]
    [⟨"!r:h", "9", true⟩] (by decide)
  exact ⟨h.1, by rw [h.2.1]; decide⟩

/-- Witness for C8: a reply quoting a message with no correlation row is
sent with the inline citation and without error. -/
theorem C8_reply_fallback_witness :
    (aiotg_message exFmt orcTgOk exDb exChatReplyText "re").exc = none ∧
    ((aiotg_message exFmt orcTgOk exDb exChatReplyText "re").ops.filter isMxSendOp).head? =
      some (.mxSend "!r:h" "@telegram_99:h" "7%3A-100"
        "Reply to Yy (Telegram):\n>orig\n\nre"
        (some "<i>Reply to Yy (Telegram):</i><br /><blockquote>orig</blockquote><p>re</p>")) := by
  have h := C8_reply_fallback exFmt orcTgOk exDb exChatReplyText "re" ⟨"!r:h", "-100", true⟩
    exReplyText ⟨55, "Yy", none⟩ "orig" 3 1000 (by decide) (by decide) (by decide)
    (by decide) (by decide) (by decide) (by decide)
  refine ⟨h.1, ?_⟩
  rw [h.2.1 (by decide)]
  decide

/-- Witness for C9: the ghost test accepts `@telegram_99:other.host`, and
the event from that user in the linked room is dropped. -/
theorem C9_ghost_classification_witness :
    matrix_is_telegram ("@" ++ "telegram_99" ++ ":" ++ "other.host") =
      pyStartsWith "telegram_99" "telegram_" ∧
    processMatrixEvent "h" false exMxOrc exDb exEvGhost = ⟨[], exDb, none⟩ :=
  C9_ghost_classification "telegram_99" "other.host" (by decide) "h" false exMxOrc
    exDb "!r:h" "@telegram_99:other.host" "m.room.message" exEvGhost ⟨"!r:h", "-100", true⟩
    (by decide) (Or.inl rfl) (by decide) (by decide) (by decide) (by decide) (by decide)

/-- Witness for C10: a reply quoting a bare message is dropped before any
send at the fixtures. -/
theorem C10_reply_without_content_dropped_witness :
    (aiotg_message exFmt orcTgOk exDb exChatReplyBare "re").exc = none ∧
    (aiotg_message exFmt orcTgOk exDb exChatReplyBare "re").ops.filter isMxSendOp = [] ∧
    (aiotg_message exFmt orcTgOk exDb exChatReplyBare "re").db.messages = exDb.messages :=
  C10_reply_without_content_dropped exFmt orcTgOk exDb exChatReplyBare "re"
    ⟨"!r:h", "-100", true⟩ exReplyBare (by decide) (by decide) (by decide) (by decide)
    (by decide) (by decide)

end Telematrix
